import Mathlib

/-!
A shallow embedding of `src/axidmatester.c`.

The driver has two functions with non-trivial control flow:

* `work_func` (one test run: stamp the source buffers, map both buffer sets,
  prepare and submit the two descriptors, wait, verify, unwind), and
* `axidmatester_probe` (attach: acquire channels, workqueue, work item and the
  two buffer sets, with a goto ladder that releases them on failure).

Both talk to the kernel (DMA mapping layer, dmaengine, allocator, sysfs).  The
kernel is not part of the repository, so every value the kernel hands back is
a field of an environment record (`Env`, `ProbeEnv`); the functions themselves
are translated statement by statement and return the ordered list of the
kernel calls they make.

Conventions: a byte buffer is a function from offsets to bytes (`Nat`, read
modulo 256); a C array on the stack or the heap is a `List Nat` of its declared
length; pointers and `dma_addr_t` values are `Nat` with `0` for `NULL`.
-/

namespace AxiDmaTester

/-! ## Constants (`#define`s, lines 29-33) and timeouts (lines 93-94) -/

/-- Constant `#define BD_COUNT 13`. -/
def BD_COUNT : Nat := 13

/-- Constant `#define BUFFER_SIZE 16384`. -/
def BUFFER_SIZE : Nat := 16384

/-- Constant `#define BUFFER_CHECKSUM_SIZE 2`. -/
def BUFFER_CHECKSUM_SIZE : Nat := 2

/-- Constant `#define BUFFER_DATA_SIZE (BUFFER_SIZE - BUFFER_CHECKSUM_SIZE)`. -/
def BUFFER_DATA_SIZE : Nat := BUFFER_SIZE - BUFFER_CHECKSUM_SIZE

/-- Receive timeout in milliseconds: the argument of `msecs_to_jiffies` in
`unsigned long rx_tmo = msecs_to_jiffies(300000);`. -/
def rx_tmo_msecs : Nat := 300000

/-- Transmit timeout in milliseconds: the argument of `msecs_to_jiffies` in
`unsigned long tx_tmo = msecs_to_jiffies(30000);`. -/
def tx_tmo_msecs : Nat := 30000

/-! ## `struct buffer_format` (lines 52-56) -/

/-- A buffer of `BUFFER_SIZE` bytes: the byte stored at each offset. -/
abbrev Buffer := Nat → Nat

/-- The field `random_data`: the `BUFFER_DATA_SIZE` bytes at offsets
`0 .. BUFFER_DATA_SIZE - 1`, in the form `ip_compute_csum` receives them. -/
def random_data (b : Buffer) : List Nat :=
  (List.range BUFFER_DATA_SIZE).map (fun o => b o % 256)

/-- Reading the field `checksum`: the struct is `__packed`, so the `u16` sits
right after `random_data`, at offsets `BUFFER_DATA_SIZE` and
`BUFFER_DATA_SIZE + 1` (low byte first). -/
def checksum (b : Buffer) : Nat :=
  b BUFFER_DATA_SIZE % 256 + 256 * (b (BUFFER_DATA_SIZE + 1) % 256)

/-- The assignment `buffer_format->checksum = csum;` of a `u16`. -/
def set_checksum (b : Buffer) (csum : Nat) : Buffer := fun o =>
  if o = BUFFER_DATA_SIZE then csum % 256
  else if o = BUFFER_DATA_SIZE + 1 then csum / 256 % 256
  else b o

/-- The call `get_random_bytes(buffer_format->random_data, BUFFER_DATA_SIZE)`:
`rnd o` is the byte the kernel produces for offset `o`. -/
def fill_random_data (rnd : Nat → Nat) (b : Buffer) : Buffer := fun o =>
  if o < BUFFER_DATA_SIZE then rnd o % 256 else b o

/-- The value kept in `u16 csum` after
`csum = ip_compute_csum(buffer_format->random_data, BUFFER_DATA_SIZE);`. -/
def compute_csum (ip_compute_csum : List Nat → Nat) (b : Buffer) : Nat :=
  ip_compute_csum (random_data b) % 65536

/-- Body of the stamping loop (lines 102-108) for one source buffer. -/
def stamp (ip_compute_csum : List Nat → Nat) (rnd : Nat → Nat) (b : Buffer) : Buffer :=
  let b1 := fill_random_data rnd b
  let csum := compute_csum ip_compute_csum b1
  set_checksum b1 csum

/-- The test of the verification loop (lines 226-227), negated:
`true` when `csum != buffer_format->checksum` is false, the `pass++` branch. -/
def verify (ip_compute_csum : List Nat → Nat) (b : Buffer) : Bool :=
  decide (compute_csum ip_compute_csum b = checksum b)

/-! ## The kernel as seen by `work_func` -/

/-- Values of `enum dma_status`. -/
inductive dma_status
  | DMA_COMPLETE
  | DMA_IN_PROGRESS
  | DMA_PAUSED
  | DMA_ERROR
  deriving DecidableEq, Repr

/-- Everything the kernel and the hardware decide during one run of `work_func`. -/
structure Env where
  /-- The kernel function `ip_compute_csum` on a byte sequence. -/
  ip_compute_csum : List Nat → Nat
  /-- Byte produced by `get_random_bytes` for source buffer `i` at offset `o`. -/
  random : Nat → Nat → Nat
  /-- Return value of `dma_map_single(tx_dev->dev, gd.srcs[i], ...)`. -/
  map_src : Nat → Nat
  /-- Return value of `dma_map_single(rx_dev->dev, gd.dsts[i], ...)`. -/
  map_dst : Nat → Nat
  /-- The kernel predicate `dma_mapping_error` on a returned address. -/
  dma_mapping_error : Nat → Bool
  /-- What the stack holds in `dma_dsts[i]` on entry (the array is never initialised). -/
  dma_dsts_stack : Nat → Nat
  /-- Whether `device_prep_slave_sg` for the receive list returns a descriptor (non-NULL). -/
  rxd : Bool
  /-- Whether `device_prep_slave_sg` for the transmit list returns a descriptor (non-NULL). -/
  txd : Bool
  /-- The test `dma_submit_error(rx_cookie)`. -/
  rx_submit_error : Bool
  /-- The test `dma_submit_error(tx_cookie)`. -/
  tx_submit_error : Bool
  /-- Return value of `wait_for_completion_timeout(&tx_cmp, tx_tmo)`; `0` is a timeout. -/
  tx_wait : Nat
  /-- Return value of `dma_async_is_tx_complete(gd.tx_chan, tx_cookie, ...)`. -/
  tx_status : dma_status
  /-- Return value of `wait_for_completion_timeout(&rx_cmp, rx_tmo)`; `0` is a timeout. -/
  rx_wait : Nat
  /-- Return value of `dma_async_is_tx_complete(gd.rx_chan, rx_cookie, ...)`. -/
  rx_status : dma_status
  /-- Content of destination buffer `gd.dsts[i]` when the verification loop reads it. -/
  dsts : Nat → Buffer

/-- The kernel calls of `work_func`, and the reads of `dma_srcs` by its unwind
scan, in program order. -/
inductive Call
  /-- Source mapping: `dma_srcs[i] = dma_map_single(...)` returned `addr`. -/
  | map_src (i addr : Nat)
  /-- Destination mapping: `dma_dsts[i] = dma_map_single(...)` returned `addr`. -/
  | map_dst (i addr : Nat)
  /-- Preparation `device_prep_slave_sg(gd.rx_chan, rx_sg, BD_COUNT, DMA_DEV_TO_MEM, ...)`. -/
  | prep_rx (sg : List (Nat × Nat))
  /-- Preparation `device_prep_slave_sg(gd.tx_chan, tx_sg, BD_COUNT, DMA_MEM_TO_DEV, ...)`. -/
  | prep_tx (sg : List (Nat × Nat))
  /-- Submission `rxd->tx_submit(rxd)`. -/
  | submit_rx
  /-- Submission `rxd->tx_submit(txd)`. -/
  | submit_tx
  /-- Kick `dma_async_issue_pending(gd.rx_chan)`. -/
  | issue_pending_rx
  /-- Kick `dma_async_issue_pending(gd.tx_chan)`. -/
  | issue_pending_tx
  /-- Wait `wait_for_completion_timeout(&tx_cmp, tx_tmo)`, where `tx_tmo` is
  `msecs_to_jiffies` of the given number of milliseconds. -/
  | wait_tx (msecs : Nat)
  /-- Status query `dma_async_is_tx_complete(gd.tx_chan, tx_cookie, NULL, NULL)`. -/
  | status_tx
  /-- Wait `wait_for_completion_timeout(&rx_cmp, rx_tmo)`, where `rx_tmo` is
  `msecs_to_jiffies` of the given number of milliseconds. -/
  | wait_rx (msecs : Nat)
  /-- Status query `dma_async_is_tx_complete(gd.rx_chan, rx_cookie, NULL, NULL)`. -/
  | status_rx
  /-- The report `pr_info("Pass: %d Fail: %d\n", pass, fail)`. -/
  | report (pass fail : Nat)
  /-- Destination unmap: `dma_unmap_single(rx_dev->dev, dma_dsts[i], ...)` with the value read. -/
  | unmap_dst (i addr : Nat)
  /-- Evaluation of the loop condition `dma_srcs[i]` of the source unwind scan. -/
  | read_dma_srcs (i : Nat)
  /-- Source unmap: `dma_unmap_single(tx_dev->dev, dma_srcs[i], ...)` with the value read. -/
  | unmap_src (i addr : Nat)
  deriving DecidableEq, Repr

/-! ## `work_func` (lines 77-248) -/

/-- Stamping loop (lines 101-109), `n` iterations left, at index `i`. -/
def stamp_loop (env : Env) : Nat → Nat → (Nat → Buffer) → (Nat → Buffer)
  | 0, _, srcs => srcs
  | n + 1, i, srcs =>
    stamp_loop env n (i + 1)
      (fun j => if j = i then stamp env.ip_compute_csum (env.random i) (srcs i) else srcs j)

/-- Outcome of a mapping loop: the address array, the calls made, and whether
the loop ran to its end (`false`: it left through the `goto`). -/
structure Mapped where
  /-- The array `dma_srcs` or `dma_dsts` after the loop. -/
  dma : List Nat
  /-- The `dma_map_single` calls made. -/
  calls : List Call
  /-- Whether no call met `dma_mapping_error`. -/
  ok : Bool

/-- Mapping loop (lines 115-122 and 125-132), `n` iterations left, at index `i`:
store what `dma_map_single` returns in slot `i`, then test `dma_mapping_error`
on the stored value and leave on error. -/
def map_loop (dma_map_single : Nat → Nat) (dma_mapping_error : Nat → Bool)
    (call : Nat → Nat → Call) : Nat → Nat → List Nat → Mapped
  | 0, _, dma => ⟨dma, [], true⟩
  | n + 1, i, dma =>
    let addr := dma_map_single i
    let dma1 := dma.set i addr
    if dma_mapping_error addr then ⟨dma1, [call i addr], false⟩
    else
      let r := map_loop dma_map_single dma_mapping_error call n (i + 1) dma1
      ⟨r.dma, call i addr :: r.calls, r.ok⟩

/-- Verification loop (lines 223-233), `n` iterations left, at index `i`,
carrying `(pass, fail)`. -/
def verify_loop (env : Env) : Nat → Nat → Nat × Nat → Nat × Nat
  | 0, _, pf => pf
  | n + 1, i, pf =>
    let csum := compute_csum env.ip_compute_csum (env.dsts i)
    if csum ≠ checksum (env.dsts i) then verify_loop env n (i + 1) (pf.1, pf.2 + 1)
    else verify_loop env n (i + 1) (pf.1 + 1, pf.2)

/-- Lines 134-234: from the scatter lists to the report.  Every `goto
unmap_destination` ends the list early; falling off the end after the report
reaches the same label. -/
def transfer (env : Env) (dma_srcs dma_dsts : List Nat) : List Call :=
  let tx_sg := (dma_srcs.take BD_COUNT).map (fun a => (a, BUFFER_SIZE))
  let rx_sg := (dma_dsts.take BD_COUNT).map (fun a => (a, BUFFER_SIZE))
  Call.prep_rx rx_sg ::
  (if !env.rxd then [] else
  Call.prep_tx tx_sg ::
  (if !env.txd then [] else
  Call.submit_rx ::
  (if env.rx_submit_error then [] else
  Call.submit_tx ::
  (if env.tx_submit_error then [] else
  Call.issue_pending_rx :: Call.issue_pending_tx :: Call.wait_tx tx_tmo_msecs ::
  (if env.tx_wait = 0 then [] else
  Call.status_tx ::
  (if env.tx_status ≠ dma_status.DMA_COMPLETE then [] else
  Call.wait_rx rx_tmo_msecs ::
  (if env.rx_wait = 0 then [] else
  Call.status_rx ::
  (if env.rx_status ≠ dma_status.DMA_COMPLETE then [] else
  let pf := verify_loop env BD_COUNT 0 (0, 0)
  [Call.report pf.1 pf.2]))))))))

/-- Label `unmap_destination` (lines 236-241): `for (i = 0; i < BD_COUNT; i++)`
unmap whatever `dma_dsts[i]` holds.  The array has `BD_COUNT` slots, so every
read is in bounds. -/
def unmap_destination (dma_dsts : List Nat) : List Call :=
  (List.range BD_COUNT).map (fun i => Call.unmap_dst i (dma_dsts.getD i 0))

/-- Label `unmap_source` (lines 243-247): `for (i = 0; dma_srcs[i]; i++)`
unmap `dma_srcs[i]`, scanning the slots from index `i` on.  The first argument
is what is left of the array from slot `i`; when nothing is left the condition
still reads `dma_srcs[i]`, past the end of the array, and what C does from
there on is undefined, so the scan is cut at that read. -/
def unmap_source : List Nat → Nat → List Call
  | [], i => [Call.read_dma_srcs i]
  | addr :: rest, i =>
    Call.read_dma_srcs i ::
      (if addr = 0 then [] else Call.unmap_src i addr :: unmap_source rest (i + 1))

/-- Result of one run: the source buffers as stamped and the calls made. -/
structure Run where
  /-- The buffers `gd.srcs[i]` after the run. -/
  srcs : Nat → Buffer
  /-- The calls made, in order. -/
  calls : List Call

/-- The function `work_func`, on the source buffers `gd.srcs`. -/
def work_func (env : Env) (gd_srcs : Nat → Buffer) : Run :=
  let srcs := stamp_loop env BD_COUNT 0 gd_srcs
  -- memset(dma_srcs, 0, sizeof(dma_srcs)); dma_dsts is left as found
  let dma_srcs := List.replicate BD_COUNT 0
  let dma_dsts := (List.range BD_COUNT).map env.dma_dsts_stack
  let s := map_loop env.map_src env.dma_mapping_error Call.map_src BD_COUNT 0 dma_srcs
  if !s.ok then ⟨srcs, s.calls ++ unmap_source s.dma 0⟩
  else
    let d := map_loop env.map_dst env.dma_mapping_error Call.map_dst BD_COUNT 0 dma_dsts
    if !d.ok then
      ⟨srcs, s.calls ++ d.calls ++ unmap_destination d.dma ++ unmap_source s.dma 0⟩
    else
      ⟨srcs, s.calls ++ d.calls ++ transfer env s.dma d.dma
        ++ unmap_destination d.dma ++ unmap_source s.dma 0⟩

/-! ## The kernel as seen by `axidmatester_probe` -/

/-- Everything the kernel decides during one call of `axidmatester_probe`. -/
structure ProbeEnv where
  /-- Result of `dma_request_chan(&pdev->dev, "axidma0")`: `none` when `IS_ERR` holds. -/
  axidma0 : Option Nat
  /-- Result of `dma_request_chan(&pdev->dev, "axidma1")`: `none` when `IS_ERR` holds. -/
  axidma1 : Option Nat
  /-- Pointer returned by `create_workqueue("workqueue")`. -/
  workqueue : Nat
  /-- Pointer returned by `kmalloc(sizeof(struct work_struct), GFP_KERNEL)`. -/
  work : Nat
  /-- Pointer returned by `kcalloc(BD_COUNT + 1, sizeof(u8 *), GFP_KERNEL)` for `gd.srcs`. -/
  srcs : Nat
  /-- Pointer returned by `kmalloc(BUFFER_SIZE, GFP_KERNEL)` for `gd.srcs[i]`. -/
  src_buf : Nat → Nat
  /-- Pointer returned by `kcalloc(BD_COUNT + 1, sizeof(u8 *), GFP_KERNEL)` for `gd.dsts`. -/
  dsts : Nat
  /-- Pointer returned by `kmalloc(BUFFER_SIZE, GFP_KERNEL)` for `gd.dsts[i]`. -/
  dst_buf : Nat → Nat
  /-- Return value of `sysfs_create_group`. -/
  sysfs_create_group : Int

/-- A resource held by the driver, with the handle the kernel gave for it. -/
inductive Resource
  /-- Channel `gd.tx_chan`. -/
  | axidma0 (chan : Nat)
  /-- Channel `gd.rx_chan`. -/
  | axidma1 (chan : Nat)
  /-- Workqueue `gd.workqueue`. -/
  | workqueue (p : Nat)
  /-- Work item `gd.work`. -/
  | work (p : Nat)
  /-- Pointer array `gd.srcs`. -/
  | srcs (p : Nat)
  /-- Buffer `gd.srcs[i]`. -/
  | src_buf (i p : Nat)
  /-- Pointer array `gd.dsts`. -/
  | dsts (p : Nat)
  /-- Buffer `gd.dsts[i]`. -/
  | dst_buf (i p : Nat)
  /-- The sysfs attribute group. -/
  | sysfs_group
  deriving DecidableEq, Repr

/-- A successful acquisition or a release made by `axidmatester_probe`. -/
inductive ProbeCall
  /-- The kernel handed out the resource. -/
  | acquire (r : Resource)
  /-- One of `dma_release_channel`, `destroy_workqueue` or `kfree` on the resource. -/
  | release (r : Resource)
  deriving DecidableEq, Repr

/-! ## `axidmatester_probe` (lines 283-404) -/

/-- The fields of `struct driver_data gd` that probe fills, with the slots of
the two pointer arrays. -/
structure driver_data where
  /-- Field `gd.tx_chan`. -/
  tx_chan : Nat
  /-- Field `gd.rx_chan`. -/
  rx_chan : Nat
  /-- Field `gd.workqueue`. -/
  workqueue : Nat
  /-- Field `gd.work`. -/
  work : Nat
  /-- Field `gd.srcs`. -/
  srcs : Nat
  /-- The `BD_COUNT + 1` slots `gd.srcs[0 .. BD_COUNT]`. -/
  srcs_slots : List Nat
  /-- Field `gd.dsts`. -/
  dsts : Nat
  /-- The `BD_COUNT + 1` slots `gd.dsts[0 .. BD_COUNT]`. -/
  dsts_slots : List Nat

/-- Outcome of a buffer allocation loop. -/
structure Allocated where
  /-- The slots of the pointer array after the loop. -/
  slots : List Nat
  /-- The successful allocations. -/
  calls : List ProbeCall
  /-- Whether every `kmalloc` returned non-NULL. -/
  ok : Bool

/-- Allocation loop (lines 331-337 and 350-356), `n` iterations left, at index
`i`: store what `kmalloc` returns in slot `i` and leave when it is `NULL`. -/
def alloc_loop (kmalloc : Nat → Nat) (res : Nat → Nat → Resource) :
    Nat → Nat → List Nat → Allocated
  | 0, _, slots => ⟨slots, [], true⟩
  | n + 1, i, slots =>
    let p := kmalloc i
    let slots1 := slots.set i p
    if p = 0 then ⟨slots1, [], false⟩
    else
      let r := alloc_loop kmalloc res n (i + 1) slots1
      ⟨r.slots, ProbeCall.acquire (res i p) :: r.calls, r.ok⟩

/-- The scans `for (i = 0; gd.srcs[i]; i++) kfree(gd.srcs[i]);` (lines 373-374
and 380-381) over the slots from index `i` on.  The arrays have `BD_COUNT + 1`
slots and the loops above write only the first `BD_COUNT`, so a zero slot is
always met before the slots run out. -/
def free_scan (res : Nat → Nat → Resource) : List Nat → Nat → List ProbeCall
  | [], _ => []
  | p :: rest, i =>
    if p = 0 then [] else ProbeCall.release (res i p) :: free_scan res rest (i + 1)

/-- Label `release_axidma0` (lines 397-399). -/
def release_axidma0 (gd : driver_data) : List ProbeCall :=
  [ProbeCall.release (Resource.axidma0 gd.tx_chan)]

/-- Label `release_axidma1` (lines 393-395), falling through. -/
def release_axidma1 (gd : driver_data) : List ProbeCall :=
  ProbeCall.release (Resource.axidma1 gd.rx_chan) :: release_axidma0 gd

/-- Label `destroy_workqueue` (lines 389-391), falling through. -/
def destroy_workqueue (gd : driver_data) : List ProbeCall :=
  ProbeCall.release (Resource.workqueue gd.workqueue) :: release_axidma1 gd

/-- Label `free_work` (lines 385-387), falling through. -/
def free_work (gd : driver_data) : List ProbeCall :=
  ProbeCall.release (Resource.work gd.work) :: destroy_workqueue gd

/-- Label `free_source` (lines 378-383), falling through. -/
def free_source (gd : driver_data) : List ProbeCall :=
  free_scan Resource.src_buf gd.srcs_slots 0
    ++ ProbeCall.release (Resource.srcs gd.srcs) :: free_work gd

/-- Label `free_destination` (lines 371-376), falling through. -/
def free_destination (gd : driver_data) : List ProbeCall :=
  free_scan Resource.dst_buf gd.dsts_slots 0
    ++ ProbeCall.release (Resource.dsts gd.dsts) :: free_source gd

/-- Result of probe: the value returned and the acquisitions and releases made. -/
structure Probe where
  /-- The `int` returned. -/
  ret : Int
  /-- Acquisitions and releases, in order. -/
  calls : List ProbeCall

/-- The function `axidmatester_probe`. -/
def axidmatester_probe (env : ProbeEnv) : Probe :=
  let ret : Int := 0
  let gd : driver_data := ⟨0, 0, 0, 0, 0, [], 0, []⟩
  match env.axidma0 with
  | none => ⟨-1, []⟩
  | some tx =>
    let gd := { gd with tx_chan := tx }
    let c := [ProbeCall.acquire (Resource.axidma0 tx)]
    match env.axidma1 with
    | none => ⟨ret, c ++ release_axidma0 gd⟩
    | some rx =>
      let gd := { gd with rx_chan := rx }
      let c := c ++ [ProbeCall.acquire (Resource.axidma1 rx)]
      let gd := { gd with workqueue := env.workqueue }
      if gd.workqueue = 0 then ⟨ret, c ++ release_axidma1 gd⟩
      else
        let c := c ++ [ProbeCall.acquire (Resource.workqueue gd.workqueue)]
        let gd := { gd with work := env.work }
        if gd.work = 0 then ⟨ret, c ++ destroy_workqueue gd⟩
        else
          let c := c ++ [ProbeCall.acquire (Resource.work gd.work)]
          let gd := { gd with srcs := env.srcs }
          if gd.srcs = 0 then ⟨ret, c ++ free_work gd⟩
          else
            let c := c ++ [ProbeCall.acquire (Resource.srcs gd.srcs)]
            -- kcalloc and memset leave BD_COUNT + 1 zero slots
            let s := alloc_loop env.src_buf Resource.src_buf BD_COUNT 0
              (List.replicate (BD_COUNT + 1) 0)
            let gd := { gd with srcs_slots := s.slots }
            let c := c ++ s.calls
            if !s.ok then ⟨ret, c ++ free_source gd⟩
            else
              let gd := { gd with dsts := env.dsts }
              if gd.dsts = 0 then ⟨ret, c ++ free_source gd⟩
              else
                let c := c ++ [ProbeCall.acquire (Resource.dsts gd.dsts)]
                let d := alloc_loop env.dst_buf Resource.dst_buf BD_COUNT 0
                  (List.replicate (BD_COUNT + 1) 0)
                let gd := { gd with dsts_slots := d.slots }
                let c := c ++ d.calls
                if !d.ok then ⟨ret, c ++ free_destination gd⟩
                else
                  let ret := env.sysfs_create_group
                  if ret ≠ 0 then ⟨ret, c ++ free_destination gd⟩
                  else ⟨ret, c ++ [ProbeCall.acquire Resource.sysfs_group]⟩


/-! ## Observations on a run -/

/-- The address of a successful source mapping, when the call is one. -/
def src_map_addr (dma_mapping_error : Nat → Bool) : Call → Option Nat
  | Call.map_src _ a => if dma_mapping_error a then none else some a
  | _ => none

/-- The address of a successful destination mapping, when the call is one. -/
def dst_map_addr (dma_mapping_error : Nat → Bool) : Call → Option Nat
  | Call.map_dst _ a => if dma_mapping_error a then none else some a
  | _ => none

/-- The value passed to a source `dma_unmap_single`, when the call is one. -/
def src_unmap_addr : Call → Option Nat
  | Call.unmap_src _ a => some a
  | _ => none

/-- The value passed to a destination `dma_unmap_single`, when the call is one. -/
def dst_unmap_addr : Call → Option Nat
  | Call.unmap_dst _ a => some a
  | _ => none

/-- The index read, when the call is a read of `dma_srcs` by the unwind scan. -/
def scan_index : Call → Option Nat
  | Call.read_dma_srcs i => some i
  | _ => none

/-- The bus addresses for which a source `dma_map_single` succeeded, in call order. -/
def src_mapped (env : Env) (calls : List Call) : List Nat :=
  calls.filterMap (src_map_addr env.dma_mapping_error)

/-- The bus addresses for which a destination `dma_map_single` succeeded, in call order. -/
def dst_mapped (env : Env) (calls : List Call) : List Nat :=
  calls.filterMap (dst_map_addr env.dma_mapping_error)

/-- The values passed to the source `dma_unmap_single`, in call order. -/
def src_unmapped (calls : List Call) : List Nat :=
  calls.filterMap src_unmap_addr

/-- The values passed to the destination `dma_unmap_single`, in call order. -/
def dst_unmapped (calls : List Call) : List Nat :=
  calls.filterMap dst_unmap_addr

/-- The indices at which the source unwind scan reads `dma_srcs`. -/
def scan_reads (calls : List Call) : List Nat :=
  calls.filterMap scan_index

/-- A run emits a pass/fail verification result. -/
def reports (calls : List Call) : Prop :=
  ∃ pass fail, Call.report pass fail ∈ calls

/-- Every fallible step of a run succeeds: all mappings, both preparations,
both submissions, both waits and both status queries. -/
def all_steps_succeed (env : Env) : Prop :=
  (∀ i, i < BD_COUNT → env.dma_mapping_error (env.map_src i) = false) ∧
  (∀ i, i < BD_COUNT → env.dma_mapping_error (env.map_dst i) = false) ∧
  env.rxd = true ∧ env.txd = true ∧
  env.rx_submit_error = false ∧ env.tx_submit_error = false ∧
  env.tx_wait ≠ 0 ∧ env.tx_status = dma_status.DMA_COMPLETE ∧
  env.rx_wait ≠ 0 ∧ env.rx_status = dma_status.DMA_COMPLETE

instance (env : Env) : Decidable (all_steps_succeed env) := by
  unfold all_steps_succeed
  infer_instance

/-- Only the receive completion never signals: every step up to and including
the transmit status query succeeds and the receive wait times out. -/
def only_rx_never_signals (env : Env) : Prop :=
  (∀ i, i < BD_COUNT → env.dma_mapping_error (env.map_src i) = false) ∧
  (∀ i, i < BD_COUNT → env.dma_mapping_error (env.map_dst i) = false) ∧
  env.rxd = true ∧ env.txd = true ∧
  env.rx_submit_error = false ∧ env.tx_submit_error = false ∧
  env.tx_wait ≠ 0 ∧ env.tx_status = dma_status.DMA_COMPLETE ∧
  env.rx_wait = 0

instance (env : Env) : Decidable (only_rx_never_signals env) := by
  unfold only_rx_never_signals
  infer_instance

/-- The kernel constant `DMA_MAPPING_ERROR`, that is `(~(dma_addr_t)0)`, for a
64-bit `dma_addr_t`: what `dma_map_single` returns when it fails. -/
def DMA_MAPPING_ERROR : Nat := 2 ^ 64 - 1

/-- The kernel test `dma_mapping_error`: the address is `DMA_MAPPING_ERROR`. -/
def linux_dma_mapping_error (addr : Nat) : Bool := addr == DMA_MAPPING_ERROR

/-- Sum of the 16-bit little-endian words of a byte sequence. -/
def sum16 : List Nat → Nat
  | [] => 0
  | [a] => a % 256
  | a :: b :: rest => a % 256 + 256 * (b % 256) + sum16 rest

/-- The 16-bit one's-complement Internet checksum, as `ip_compute_csum`
computes it on a little-endian machine for the lengths used here. -/
def inet_csum (bytes : List Nat) : Nat :=
  let s := sum16 bytes
  let s1 := s % 65536 + s / 65536
  let s2 := s1 % 65536 + s1 / 65536
  65535 - s2 % 65536

/-- A run in which every step succeeds; the destination buffers are all zero. -/
def env_ok : Env where
  ip_compute_csum := inet_csum
  random := fun i o => (7 * i + 13 * o) % 256
  map_src := fun i => 4096 * (i + 1)
  map_dst := fun i => 4096 * (i + 101)
  dma_mapping_error := linux_dma_mapping_error
  dma_dsts_stack := fun i => 7000 + i
  rxd := true
  txd := true
  rx_submit_error := false
  tx_submit_error := false
  tx_wait := 1
  tx_status := dma_status.DMA_COMPLETE
  rx_wait := 1
  rx_status := dma_status.DMA_COMPLETE
  dsts := fun _ _ => 0

/-- As `env_ok`, but `dma_map_single` fails for source buffer `k`. -/
def env_src_fail (k : Nat) : Env :=
  { env_ok with map_src := fun i => if i = k then DMA_MAPPING_ERROR else 4096 * (i + 1) }

/-- As `env_ok`, but `dma_map_single` fails for destination buffer `j`. -/
def env_dst_fail (j : Nat) : Env :=
  { env_ok with map_dst := fun i => if i = j then DMA_MAPPING_ERROR else 4096 * (i + 101) }

/-- As `env_ok`, but the receive completion never signals. -/
def env_rx_never : Env :=
  { env_ok with rx_wait := 0 }

/-- Source buffers that are all zero on entry. -/
def gd_srcs_zero : Nat → Buffer := fun _ _ => 0

/-- The source mapping loop of `work_func` as run from a zeroed `dma_srcs`. -/
def src_maps (env : Env) : Mapped :=
  map_loop env.map_src env.dma_mapping_error Call.map_src BD_COUNT 0 (List.replicate BD_COUNT 0)

/-- The destination mapping loop of `work_func` as run from the uninitialised `dma_dsts`. -/
def dst_maps (env : Env) : Mapped :=
  map_loop env.map_dst env.dma_mapping_error Call.map_dst BD_COUNT 0
    ((List.range BD_COUNT).map env.dma_dsts_stack)

/-! ## Observations on a probe -/

/-- The resources acquired, in order of acquisition. -/
def acquired (calls : List ProbeCall) : List Resource :=
  calls.filterMap (fun c => match c with
    | ProbeCall.acquire r => some r
    | _ => none)

/-- The resources released, in order of release. -/
def released (calls : List ProbeCall) : List Resource :=
  calls.filterMap (fun c => match c with
    | ProbeCall.release r => some r
    | _ => none)

/-- The attach step that acquires a resource, numbered in program order. -/
def Resource.step : Resource → Nat
  | Resource.axidma0 _ => 0
  | Resource.axidma1 _ => 1
  | Resource.workqueue _ => 2
  | Resource.work _ => 3
  | Resource.srcs _ => 4
  | Resource.src_buf _ _ => 5
  | Resource.dsts _ => 6
  | Resource.dst_buf _ _ => 7
  | Resource.sysfs_group => 8

/-- The slot of a buffer within its set; `0` for every other resource. -/
def Resource.slot : Resource → Nat
  | Resource.src_buf i _ => i
  | Resource.dst_buf i _ => i
  | _ => 0

/-- Order of acquisition: an earlier step first, and within one buffer set the
lower slot first. -/
def acquired_before (a b : Resource) : Prop :=
  a.step < b.step ∨ (a.step = b.step ∧ a.slot < b.slot)

/-- Order of release that the unwind ladder follows: a later step first, and
within one buffer set the lower slot first. -/
def released_before (a b : Resource) : Prop :=
  b.step < a.step ∨ (a.step = b.step ∧ a.slot < b.slot)

instance (a b : Resource) : Decidable (acquired_before a b) := by
  unfold acquired_before
  infer_instance

instance (a b : Resource) : Decidable (released_before a b) := by
  unfold released_before
  infer_instance

/-- Every attach step succeeds. -/
def attach_succeeds (env : ProbeEnv) : Prop :=
  env.axidma0.isSome = true ∧ env.axidma1.isSome = true ∧
  env.workqueue ≠ 0 ∧ env.work ≠ 0 ∧
  env.srcs ≠ 0 ∧ (∀ i, i < BD_COUNT → env.src_buf i ≠ 0) ∧
  env.dsts ≠ 0 ∧ (∀ i, i < BD_COUNT → env.dst_buf i ≠ 0) ∧
  env.sysfs_create_group = 0

instance (env : ProbeEnv) : Decidable (attach_succeeds env) := by
  unfold attach_succeeds
  infer_instance

/-- A probe in which every step succeeds. -/
def penv_ok : ProbeEnv where
  axidma0 := some 10
  axidma1 := some 11
  workqueue := 20
  work := 30
  srcs := 40
  src_buf := fun i => 100 + i
  dsts := 50
  dst_buf := fun i => 200 + i
  sysfs_create_group := 0

/-- The errno `ENOMEM`. -/
def ENOMEM : Int := 12

/-- The resources of a complete attach, grouped by the step that acquires them:
`ks` source buffers and `kd` destination buffers. -/
def attach_blocks (env : ProbeEnv) (tx rx ks kd : Nat) : List (List Resource) :=
  [[Resource.axidma0 tx], [Resource.axidma1 rx], [Resource.workqueue env.workqueue],
   [Resource.work env.work], [Resource.srcs env.srcs],
   (List.range' 0 ks).map (fun j => Resource.src_buf j (env.src_buf j)),
   [Resource.dsts env.dsts],
   (List.range' 0 kd).map (fun j => Resource.dst_buf j (env.dst_buf j))]

/-- As `penv_ok`, but requesting channel "axidma1" fails. -/
def penv_rx_fail : ProbeEnv :=
  { penv_ok with axidma1 := none }

/-- As `penv_ok`, but `kmalloc` returns `NULL` for source buffer `k`. -/
def penv_src_fail (k : Nat) : ProbeEnv :=
  { penv_ok with src_buf := fun i => if i = k then 0 else 100 + i }

/-- As `penv_ok`, but `kmalloc` returns `NULL` for destination buffer `k`. -/
def penv_dst_fail (k : Nat) : ProbeEnv :=
  { penv_ok with dst_buf := fun i => if i = k then 0 else 200 + i }

/-! ## Buffer format: stamping and checking -/

theorem stamp_payload (f : List Nat → Nat) (rnd : Nat → Nat) (b : Buffer) (o : Nat)
    (h : o < BUFFER_DATA_SIZE) : stamp f rnd b o = rnd o % 256 := by
  have h1 : o ≠ BUFFER_DATA_SIZE := by omega
  have h2 : o ≠ BUFFER_DATA_SIZE + 1 := by omega
  simp [stamp, set_checksum, fill_random_data, h, h1, h2]

theorem random_data_stamp (f : List Nat → Nat) (rnd : Nat → Nat) (b : Buffer) :
    random_data (stamp f rnd b) = random_data (fill_random_data rnd b) := by
  unfold random_data
  apply List.map_congr_left
  intro o ho
  have h : o < BUFFER_DATA_SIZE := List.mem_range.mp ho
  rw [stamp_payload f rnd b o h]
  simp [fill_random_data, h]

theorem checksum_set_checksum (b : Buffer) (c : Nat) (hc : c < 65536) :
    checksum (set_checksum b c) = c := by
  have h : BUFFER_DATA_SIZE + 1 ≠ BUFFER_DATA_SIZE := by omega
  simp only [checksum, set_checksum, h, if_true, if_false]
  omega

theorem compute_csum_lt (f : List Nat → Nat) (b : Buffer) : compute_csum f b < 65536 := by
  unfold compute_csum
  omega

theorem verify_stamp (f : List Nat → Nat) (rnd : Nat → Nat) (b : Buffer) :
    compute_csum f (stamp f rnd b) = checksum (stamp f rnd b) := by
  have h1 : compute_csum f (stamp f rnd b) = compute_csum f (fill_random_data rnd b) := by
    unfold compute_csum
    rw [random_data_stamp]
  rw [h1]
  show _ = checksum (set_checksum _ _)
  rw [checksum_set_checksum _ _ (compute_csum_lt _ _)]

theorem stamp_loop_apply (env : Env) : ∀ (n i : Nat) (srcs : Nat → Buffer) (j : Nat),
    stamp_loop env n i srcs j =
      if i ≤ j ∧ j < i + n then stamp env.ip_compute_csum (env.random j) (srcs j)
      else srcs j := by
  intro n
  induction n with
  | zero =>
    intro i srcs j
    have : ¬ (i ≤ j ∧ j < i) := by omega
    simp [stamp_loop, this]
  | succ n ih =>
    intro i srcs j
    rw [stamp_loop, ih]
    by_cases hj : j = i
    · subst hj
      have h1 : ¬ (j + 1 ≤ j ∧ j < j + 1 + n) := by omega
      have h2 : j ≤ j ∧ j < j + (n + 1) := by omega
      simp [h1, h2]
    · by_cases h : i ≤ j ∧ j < i + (n + 1)
      · have h1 : i + 1 ≤ j ∧ j < i + 1 + n := by omega
        simp [h, h1, hj]
      · have h1 : ¬ (i + 1 ≤ j ∧ j < i + 1 + n) := by omega
        simp [h, h1, hj]

theorem work_func_srcs (env : Env) (gd_srcs : Nat → Buffer) :
    (work_func env gd_srcs).srcs = stamp_loop env BD_COUNT 0 gd_srcs := by
  unfold work_func
  simp only []
  split
  · rfl
  · split <;> rfl

/-! ## The loops of `work_func` -/

theorem map_loop_ok (m : Nat → Nat) (e : Nat → Bool) (c : Nat → Nat → Call) :
    ∀ (n i : Nat) (dma : List Nat),
      (map_loop m e c n i dma).ok = true ↔ ∀ j, i ≤ j → j < i + n → e (m j) = false := by
  intro n
  induction n with
  | zero =>
    intro i dma
    simp only [map_loop, true_iff]
    intro j h1 h2
    omega
  | succ n ih =>
    intro i dma
    rw [map_loop]
    by_cases he : e (m i) = true
    · rw [if_pos he]
      constructor
      · intro h
        cases h
      · intro h
        have := h i (Nat.le_refl i) (by omega)
        rw [he] at this
        cases this
    · have he2 : e (m i) = false := by
        cases hv : e (m i)
        · rfl
        · exact absurd hv he
      rw [if_neg he]
      show (map_loop m e c n (i + 1) _).ok = true ↔ _
      rw [ih]
      constructor
      · intro h j h1 h2
        by_cases hj : j = i
        · rw [hj]
          exact he2
        · exact h j (by omega) (by omega)
      · intro h j h1 h2
        exact h j (by omega) (by omega)

theorem map_loop_calls (m : Nat → Nat) (e : Nat → Bool) (c : Nat → Nat → Call) :
    ∀ (n i : Nat) (dma : List Nat) (x : Call),
      x ∈ (map_loop m e c n i dma).calls → ∃ j a, x = c j a := by
  intro n
  induction n with
  | zero =>
    intro i dma x hx
    simp [map_loop] at hx
  | succ n ih =>
    intro i dma x hx
    rw [map_loop] at hx
    by_cases he : e (m i) = true
    · rw [if_pos he] at hx
      exact ⟨i, m i, List.mem_singleton.mp hx⟩
    · rw [if_neg he] at hx
      rcases List.mem_cons.mp hx with hx | hx
      · exact ⟨i, m i, hx⟩
      · exact ih _ _ x hx

theorem unmap_destination_calls (dma : List Nat) (x : Call)
    (hx : x ∈ unmap_destination dma) : ∃ j a, x = Call.unmap_dst j a := by
  unfold unmap_destination at hx
  rcases List.mem_map.mp hx with ⟨j, _, hj⟩
  exact ⟨j, _, hj.symm⟩

theorem unmap_source_calls : ∀ (dma : List Nat) (i : Nat) (x : Call),
    x ∈ unmap_source dma i →
      (∃ j, x = Call.read_dma_srcs j) ∨ ∃ j a, x = Call.unmap_src j a := by
  intro dma
  induction dma with
  | nil =>
    intro i x hx
    simp only [unmap_source, List.mem_singleton] at hx
    exact Or.inl ⟨i, hx⟩
  | cons a rest ih =>
    intro i x hx
    rw [unmap_source] at hx
    rcases List.mem_cons.mp hx with hx | hx
    · exact Or.inl ⟨i, hx⟩
    · by_cases ha : a = 0
      · simp [ha] at hx
      · simp only [ha, if_false, List.mem_cons] at hx
        rcases hx with hx | hx
        · exact Or.inr ⟨i, a, hx⟩
        · exact ih _ x hx

/-- The calls from the scatter lists to the report, when every step after the
mappings succeeds. -/
theorem transfer_report (env : Env) (a b : List Nat) (p f : Nat) :
    Call.report p f ∈ transfer env a b ↔
      (env.rxd = true ∧ env.txd = true ∧ env.rx_submit_error = false ∧
        env.tx_submit_error = false ∧ env.tx_wait ≠ 0 ∧
        env.tx_status = dma_status.DMA_COMPLETE ∧ env.rx_wait ≠ 0 ∧
        env.rx_status = dma_status.DMA_COMPLETE) ∧
      (p, f) = verify_loop env BD_COUNT 0 (0, 0) := by
  unfold transfer
  cases h1 : env.rxd <;> cases h2 : env.txd <;> cases h3 : env.rx_submit_error <;>
    cases h4 : env.tx_submit_error <;> by_cases h5 : env.tx_wait = 0 <;>
    by_cases h6 : env.tx_status = dma_status.DMA_COMPLETE <;>
    by_cases h7 : env.rx_wait = 0 <;>
    by_cases h8 : env.rx_status = dma_status.DMA_COMPLETE <;>
    simp [h5, h6, h7, h8, Prod.ext_iff]

/-! ## The shape of a run -/

theorem work_func_calls (env : Env) (gd_srcs : Nat → Buffer) :
    (work_func env gd_srcs).calls =
      if (src_maps env).ok = false then
        (src_maps env).calls ++ unmap_source (src_maps env).dma 0
      else if (dst_maps env).ok = false then
        (src_maps env).calls ++ (dst_maps env).calls ++ unmap_destination (dst_maps env).dma
          ++ unmap_source (src_maps env).dma 0
      else
        (src_maps env).calls ++ (dst_maps env).calls
          ++ transfer env (src_maps env).dma (dst_maps env).dma
          ++ unmap_destination (dst_maps env).dma ++ unmap_source (src_maps env).dma 0 := by
  unfold work_func src_maps dst_maps
  simp only []
  cases map_loop env.map_src env.dma_mapping_error Call.map_src BD_COUNT 0
    (List.replicate BD_COUNT 0) with
  | mk sd sc so =>
    cases map_loop env.map_dst env.dma_mapping_error Call.map_dst BD_COUNT 0
      (List.map env.dma_dsts_stack (List.range BD_COUNT)) with
    | mk dd dc dok =>
      cases so <;> cases dok <;> simp

theorem src_maps_ok (env : Env) :
    (src_maps env).ok = true ↔
      ∀ i, i < BD_COUNT → env.dma_mapping_error (env.map_src i) = false := by
  unfold src_maps
  rw [map_loop_ok]
  constructor
  · intro h i hi
    exact h i (Nat.zero_le i) (by omega)
  · intro h j _ hj
    exact h j (by omega)

theorem dst_maps_ok (env : Env) :
    (dst_maps env).ok = true ↔
      ∀ i, i < BD_COUNT → env.dma_mapping_error (env.map_dst i) = false := by
  unfold dst_maps
  rw [map_loop_ok]
  constructor
  · intro h i hi
    exact h i (Nat.zero_le i) (by omega)
  · intro h j _ hj
    exact h j (by omega)

theorem report_not_mem_src_maps (env : Env) (p f : Nat) :
    Call.report p f ∉ (src_maps env).calls := by
  intro h
  rcases map_loop_calls _ _ _ _ _ _ _ h with ⟨j, a, hja⟩
  cases hja

theorem report_not_mem_dst_maps (env : Env) (p f : Nat) :
    Call.report p f ∉ (dst_maps env).calls := by
  intro h
  rcases map_loop_calls _ _ _ _ _ _ _ h with ⟨j, a, hja⟩
  cases hja

theorem report_not_mem_unmap_destination (dma : List Nat) (p f : Nat) :
    Call.report p f ∉ unmap_destination dma := by
  intro h
  rcases unmap_destination_calls _ _ h with ⟨j, a, hja⟩
  cases hja

theorem report_not_mem_unmap_source (dma : List Nat) (i p f : Nat) :
    Call.report p f ∉ unmap_source dma i := by
  intro h
  rcases unmap_source_calls _ _ _ h with ⟨j, hj⟩ | ⟨j, a, hja⟩
  · cases hj
  · cases hja

theorem report_mem_work_func (env : Env) (gd_srcs : Nat → Buffer) (p f : Nat) :
    Call.report p f ∈ (work_func env gd_srcs).calls ↔
      all_steps_succeed env ∧ (p, f) = verify_loop env BD_COUNT 0 (0, 0) := by
  rw [work_func_calls]
  have hs := src_maps_ok env
  have hd := dst_maps_ok env
  unfold all_steps_succeed
  rw [← hs, ← hd]
  cases hso : (src_maps env).ok
  · simp [report_not_mem_src_maps, report_not_mem_unmap_source]
  · cases hdo : (dst_maps env).ok
    · simp [report_not_mem_src_maps, report_not_mem_dst_maps,
        report_not_mem_unmap_source, report_not_mem_unmap_destination]
    · simp only [Bool.true_eq_false, if_false, List.mem_append, report_not_mem_src_maps,
        report_not_mem_dst_maps, report_not_mem_unmap_source, report_not_mem_unmap_destination,
        or_false, false_or, transfer_report, true_and]

theorem reports_iff (env : Env) (gd_srcs : Nat → Buffer) :
    reports (work_func env gd_srcs).calls ↔ all_steps_succeed env := by
  unfold reports
  constructor
  · rintro ⟨p, f, h⟩
    exact ((report_mem_work_func env gd_srcs p f).mp h).1
  · intro h
    exact ⟨_, _, (report_mem_work_func env gd_srcs _ _).mpr ⟨h, rfl⟩⟩

theorem mem_work_func_calls (env : Env) (gd_srcs : Nat → Buffer) (x : Call)
    (hx : x ∈ (work_func env gd_srcs).calls) :
    (∃ j a, x = Call.map_src j a) ∨ (∃ j a, x = Call.map_dst j a) ∨
      (((src_maps env).ok = true ∧ (dst_maps env).ok = true) ∧
        x ∈ transfer env (src_maps env).dma (dst_maps env).dma) ∨
      (∃ j a, x = Call.unmap_dst j a) ∨ (∃ j, x = Call.read_dma_srcs j) ∨
      ∃ j a, x = Call.unmap_src j a := by
  rw [work_func_calls] at hx
  have h1 : ∀ y, y ∈ (src_maps env).calls → ∃ j a, y = Call.map_src j a :=
    fun y hy => map_loop_calls _ _ _ _ _ _ y hy
  have h2 : ∀ y, y ∈ (dst_maps env).calls → ∃ j a, y = Call.map_dst j a :=
    fun y hy => map_loop_calls _ _ _ _ _ _ y hy
  cases hso : (src_maps env).ok
  · rw [hso] at hx
    simp only [if_true, List.mem_append] at hx
    rcases hx with hx | hx
    · exact Or.inl (h1 x hx)
    · exact Or.inr (Or.inr (Or.inr (Or.inr (unmap_source_calls _ _ _ hx))))
  · cases hdo : (dst_maps env).ok
    · rw [hso, hdo] at hx
      simp only [Bool.true_eq_false, if_false, if_true, List.mem_append] at hx
      rcases hx with ((hx | hx) | hx) | hx
      · exact Or.inl (h1 x hx)
      · exact Or.inr (Or.inl (h2 x hx))
      · exact Or.inr (Or.inr (Or.inr (Or.inl (unmap_destination_calls _ _ hx))))
      · exact Or.inr (Or.inr (Or.inr (Or.inr (unmap_source_calls _ _ _ hx))))
    · rw [hso, hdo] at hx
      simp only [Bool.true_eq_false, if_false, List.mem_append] at hx
      rcases hx with (((hx | hx) | hx) | hx) | hx
      · exact Or.inl (h1 x hx)
      · exact Or.inr (Or.inl (h2 x hx))
      · exact Or.inr (Or.inr (Or.inl ⟨⟨rfl, rfl⟩, hx⟩))
      · exact Or.inr (Or.inr (Or.inr (Or.inl (unmap_destination_calls _ _ hx))))
      · exact Or.inr (Or.inr (Or.inr (Or.inr (unmap_source_calls _ _ _ hx))))

theorem transfer_rx_never (env : Env) (a b : List Nat)
    (h1 : env.rxd = true) (h2 : env.txd = true) (h3 : env.rx_submit_error = false)
    (h4 : env.tx_submit_error = false) (h5 : env.tx_wait ≠ 0)
    (h6 : env.tx_status = dma_status.DMA_COMPLETE) (h7 : env.rx_wait = 0) :
    transfer env a b =
      [Call.prep_rx ((b.take BD_COUNT).map (fun x => (x, BUFFER_SIZE))),
       Call.prep_tx ((a.take BD_COUNT).map (fun x => (x, BUFFER_SIZE))),
       Call.submit_rx, Call.submit_tx, Call.issue_pending_rx, Call.issue_pending_tx,
       Call.wait_tx tx_tmo_msecs, Call.status_tx, Call.wait_rx rx_tmo_msecs] := by
  unfold transfer
  simp [h1, h2, h3, h4, h5, h6, h7]

theorem work_func_rx_never (env : Env) (gd_srcs : Nat → Buffer) (h : only_rx_never_signals env) :
    (work_func env gd_srcs).calls =
      (src_maps env).calls ++ (dst_maps env).calls ++
      [Call.prep_rx (((dst_maps env).dma.take BD_COUNT).map (fun x => (x, BUFFER_SIZE))),
       Call.prep_tx (((src_maps env).dma.take BD_COUNT).map (fun x => (x, BUFFER_SIZE))),
       Call.submit_rx, Call.submit_tx, Call.issue_pending_rx, Call.issue_pending_tx,
       Call.wait_tx tx_tmo_msecs, Call.status_tx, Call.wait_rx rx_tmo_msecs] ++
      unmap_destination (dst_maps env).dma ++ unmap_source (src_maps env).dma 0 := by
  rcases h with ⟨hs, hd, h1, h2, h3, h4, h5, h6, h7⟩
  rw [work_func_calls, (src_maps_ok env).mpr hs, (dst_maps_ok env).mpr hd,
    transfer_rx_never env _ _ h1 h2 h3 h4 h5 h6 h7]
  simp

/-! ## The loops of `axidmatester_probe` -/

theorem set_length_append (pre : List Nat) (x y : Nat) (rest : List Nat) :
    (pre ++ x :: rest).set pre.length y = pre ++ y :: rest := by
  induction pre with
  | nil => rfl
  | cons a pre ih =>
    simp only [List.cons_append, List.length_cons, List.set_cons_succ, ih]

theorem alloc_loop_spec (kmalloc : Nat → Nat) (res : Nat → Nat → Resource) :
    ∀ (n i : Nat) (pre : List Nat), pre.length = i →
      ∃ k, k ≤ n ∧
        ((alloc_loop kmalloc res n i (pre ++ List.replicate (n + 1) 0)).ok = true ↔ k = n) ∧
        (k < n → kmalloc (i + k) = 0) ∧
        (∀ j, i ≤ j → j < i + k → kmalloc j ≠ 0) ∧
        (alloc_loop kmalloc res n i (pre ++ List.replicate (n + 1) 0)).calls
          = (List.range' i k).map (fun j => ProbeCall.acquire (res j (kmalloc j))) ∧
        ∃ rest, (alloc_loop kmalloc res n i (pre ++ List.replicate (n + 1) 0)).slots
          = pre ++ (List.range' i k).map kmalloc ++ 0 :: rest := by
  intro n
  induction n with
  | zero =>
    intro i pre _
    refine ⟨0, Nat.le_refl 0, ?_, ?_, ?_, ?_, [], ?_⟩
    · simp [alloc_loop]
    · intro h
      omega
    · intro j h1 h2
      omega
    · simp [alloc_loop]
    · simp [alloc_loop]
  | succ n ih =>
    intro i pre hpre
    have hset : (pre ++ List.replicate (n + 1 + 1) 0).set i (kmalloc i)
        = pre ++ kmalloc i :: List.replicate (n + 1) 0 := by
      rw [List.replicate_succ, ← hpre, set_length_append]
    rw [alloc_loop]
    simp only [hset]
    by_cases hp : kmalloc i = 0
    · rw [if_pos hp]
      refine ⟨0, Nat.zero_le _, ?_, ?_, ?_, ?_, List.replicate (n + 1) 0, ?_⟩
      · simp
      · intro _
        exact hp
      · intro j h1 h2
        omega
      · simp
      · simp [hp]
    · rw [if_neg hp]
      have hpre2 : (pre ++ [kmalloc i]).length = i + 1 := by
        simp [hpre]
      rcases ih (i + 1) (pre ++ [kmalloc i]) hpre2 with
        ⟨k, hk, hok, hfail, hnz, hcalls, rest, hslots⟩
      have happ : pre ++ kmalloc i :: List.replicate (n + 1) 0
          = (pre ++ [kmalloc i]) ++ List.replicate (n + 1) 0 := by
        simp
      rw [happ]
      refine ⟨k + 1, by omega, ?_, ?_, ?_, ?_, rest, ?_⟩
      · show (alloc_loop kmalloc res n (i + 1) _).ok = true ↔ _
        rw [hok]
        omega
      · intro h
        have := hfail (by omega)
        rw [← this]
        congr 1
        omega
      · intro j h1 h2
        by_cases hj : j = i
        · rw [hj]
          exact hp
        · exact hnz j (by omega) (by omega)
      · show ProbeCall.acquire (res i (kmalloc i))
            :: (alloc_loop kmalloc res n (i + 1) _).calls = _
        rw [hcalls, List.range'_succ]
        rfl
      · show (alloc_loop kmalloc res n (i + 1) _).slots = _
        rw [hslots, List.range'_succ]
        simp

theorem free_scan_spec (res : Nat → Nat → Resource) (f : Nat → Nat) :
    ∀ (k i : Nat) (rest : List Nat), (∀ j, i ≤ j → j < i + k → f j ≠ 0) →
      free_scan res ((List.range' i k).map f ++ 0 :: rest) i
        = (List.range' i k).map (fun j => ProbeCall.release (res j (f j))) := by
  intro k
  induction k with
  | zero =>
    intro i rest _
    simp [free_scan]
  | succ k ih =>
    intro i rest h
    rw [List.range'_succ]
    simp only [List.map_cons, List.cons_append]
    rw [free_scan, if_neg (h i (Nat.le_refl i) (by omega))]
    rw [ih (i + 1) rest (fun j h1 h2 => h j (by omega) (by omega))]

theorem alloc_then_free (kmalloc : Nat → Nat) (res : Nat → Nat → Resource) :
    ∃ k, k ≤ BD_COUNT ∧
      ((alloc_loop kmalloc res BD_COUNT 0 (List.replicate (BD_COUNT + 1) 0)).ok = true
        ↔ k = BD_COUNT) ∧
      (k < BD_COUNT → kmalloc k = 0) ∧
      (∀ j, j < k → kmalloc j ≠ 0) ∧
      (alloc_loop kmalloc res BD_COUNT 0 (List.replicate (BD_COUNT + 1) 0)).calls
        = (List.range' 0 k).map (fun j => ProbeCall.acquire (res j (kmalloc j))) ∧
      free_scan res (alloc_loop kmalloc res BD_COUNT 0 (List.replicate (BD_COUNT + 1) 0)).slots 0
        = (List.range' 0 k).map (fun j => ProbeCall.release (res j (kmalloc j))) := by
  rcases alloc_loop_spec kmalloc res BD_COUNT 0 [] rfl with
    ⟨k, hk, hok, hfail, hnz, hcalls, rest, hslots⟩
  simp only [List.nil_append] at hok hcalls hslots
  refine ⟨k, hk, hok, ?_, ?_, hcalls, ?_⟩
  · intro h
    have := hfail h
    simpa using this
  · intro j hj
    exact hnz j (Nat.zero_le j) (by omega)
  · rw [hslots]
    exact free_scan_spec res kmalloc k 0 rest (fun j h1 h2 => hnz j h1 h2)

theorem acquired_map_append (l1 l2 : List Resource) :
    acquired (l1.map ProbeCall.acquire ++ l2.map ProbeCall.release) = l1 := by
  unfold acquired
  rw [List.filterMap_append]
  have h1 : ∀ l : List Resource, List.filterMap (fun c => match c with
      | ProbeCall.acquire r => some r
      | _ => none) (l.map ProbeCall.acquire) = l := by
    intro l
    induction l with
    | nil => rfl
    | cons a l ih => simp [List.filterMap_cons, ih]
  have h2 : ∀ l : List Resource, List.filterMap (fun c => match c with
      | ProbeCall.acquire r => some r
      | _ => none) (l.map ProbeCall.release) = [] := by
    intro l
    induction l with
    | nil => rfl
    | cons a l ih => simp [List.filterMap_cons, ih]
  rw [h1, h2, List.append_nil]

theorem released_map_append (l1 l2 : List Resource) :
    released (l1.map ProbeCall.acquire ++ l2.map ProbeCall.release) = l2 := by
  unfold released
  rw [List.filterMap_append]
  have h1 : ∀ l : List Resource, List.filterMap (fun c => match c with
      | ProbeCall.release r => some r
      | _ => none) (l.map ProbeCall.acquire) = [] := by
    intro l
    induction l with
    | nil => rfl
    | cons a l ih => simp [List.filterMap_cons, ih]
  have h2 : ∀ l : List Resource, List.filterMap (fun c => match c with
      | ProbeCall.release r => some r
      | _ => none) (l.map ProbeCall.release) = l := by
    intro l
    induction l with
    | nil => rfl
    | cons a l ih => simp [List.filterMap_cons, ih]
  rw [h1, h2, List.nil_append]

theorem attach_blocks_within (env : ProbeEnv) (tx rx ks kd : Nat) :
    ∀ l ∈ attach_blocks env tx rx ks kd,
      l.Pairwise (fun a b => a.step = b.step ∧ a.slot < b.slot) := by
  have hr : ∀ k, List.Pairwise (fun a b : Nat => a < b) (List.range' 0 k) :=
    fun k => List.pairwise_lt_range' 0 k 1 (by decide)
  intro l hl
  simp only [attach_blocks, List.mem_cons, List.mem_singleton, List.not_mem_nil, or_false] at hl
  rcases hl with h | h | h | h | h | h | h | h <;> subst h
  · simp
  · simp
  · simp
  · simp
  · simp
  · rw [List.pairwise_map]
    exact (hr ks).imp (fun {a b} hab => ⟨rfl, hab⟩)
  · simp
  · rw [List.pairwise_map]
    exact (hr kd).imp (fun {a b} hab => ⟨rfl, hab⟩)

theorem attach_blocks_across (env : ProbeEnv) (tx rx ks kd : Nat) :
    (attach_blocks env tx rx ks kd).Pairwise
      (fun l1 l2 => ∀ x ∈ l1, ∀ y ∈ l2, Resource.step x < Resource.step y) := by
  simp [attach_blocks, Resource.step]

/-- What a failed probe does: it acquires the resources of the first `m` steps
(with `ks` source and `kd` destination buffers) and then releases them step by
step, last step first. -/
theorem probe_shape (env : ProbeEnv) (h : ¬ attach_succeeds env) :
    ∃ m tx rx ks kd,
      (axidmatester_probe env).calls =
        ((attach_blocks env tx rx ks kd).take m).flatten.map ProbeCall.acquire ++
        ((attach_blocks env tx rx ks kd).take m).reverse.flatten.map ProbeCall.release := by
  rcases alloc_then_free env.src_buf Resource.src_buf with ⟨ks, _, hsok, hsf, hsnz, hsc, hsfree⟩
  rcases alloc_then_free env.dst_buf Resource.dst_buf with ⟨kd, _, hdok, hdf, hdnz, hdc, hdfree⟩
  unfold axidmatester_probe
  simp only []
  generalize alloc_loop env.src_buf Resource.src_buf BD_COUNT 0
    (List.replicate (BD_COUNT + 1) 0) = s at *
  generalize alloc_loop env.dst_buf Resource.dst_buf BD_COUNT 0
    (List.replicate (BD_COUNT + 1) 0) = d at *
  cases h0 : env.axidma0 with
  | none => exact ⟨0, 0, 0, 0, 0, by simp⟩
  | some tx =>
    cases h1 : env.axidma1 with
    | none => exact ⟨1, tx, 0, 0, 0, by simp [attach_blocks, release_axidma0]⟩
    | some rx =>
      by_cases h2 : env.workqueue = 0
      · exact ⟨2, tx, rx, 0, 0, by simp [attach_blocks, release_axidma0, release_axidma1, h2]⟩
      · by_cases h3 : env.work = 0
        · exact ⟨3, tx, rx, 0, 0, by
            simp [attach_blocks, release_axidma0, release_axidma1, destroy_workqueue, h2, h3]⟩
        · by_cases h4 : env.srcs = 0
          · exact ⟨4, tx, rx, 0, 0, by
              simp [attach_blocks, release_axidma0, release_axidma1, destroy_workqueue,
                free_work, h2, h3, h4]⟩
          · cases hso : s.ok
            · exact ⟨6, tx, rx, ks, 0, by
                simp [attach_blocks, release_axidma0, release_axidma1, destroy_workqueue,
                  free_work, free_source, h2, h3, h4, hsc, hsfree, Function.comp_def]⟩
            · have hks : ks = BD_COUNT := hsok.mp hso
              by_cases h5 : env.dsts = 0
              · exact ⟨6, tx, rx, ks, 0, by
                  simp [attach_blocks, release_axidma0, release_axidma1, destroy_workqueue,
                    free_work, free_source, h2, h3, h4, h5, hsc, hsfree, Function.comp_def]⟩
              · cases hdo : d.ok
                · exact ⟨8, tx, rx, ks, kd, by
                    simp [attach_blocks, release_axidma0, release_axidma1, destroy_workqueue,
                      free_work, free_source, free_destination, h2, h3, h4, h5, hsc, hsfree,
                      hdc, hdfree, Function.comp_def]⟩
                · have hkd : kd = BD_COUNT := hdok.mp hdo
                  by_cases h6 : env.sysfs_create_group = 0
                  · exfalso
                    apply h
                    refine ⟨by simp [h0], by simp [h1], h2, h3, h4, ?_, h5, ?_, h6⟩
                    · intro i hi
                      exact hsnz i (by omega)
                    · intro i hi
                      exact hdnz i (by omega)
                  · exact ⟨8, tx, rx, ks, kd, by
                      simp [attach_blocks, release_axidma0, release_axidma1, destroy_workqueue,
                        free_work, free_source, free_destination, h2, h3, h4, h5, h6, hsc,
                        hsfree, hdc, hdfree, Function.comp_def]⟩

/-- When channel "axidma0" was obtained and any later step up to the last buffer
allocation fails (channel "axidma1", the workqueue, the work item, either
pointer array, any source or destination buffer), probe returns 0 although the
attach did not succeed. -/
theorem probe_returns_zero_of_failed_step (env : ProbeEnv) (h0 : env.axidma0.isSome = true)
    (hf : env.axidma1 = none ∨ env.workqueue = 0 ∨ env.work = 0 ∨ env.srcs = 0 ∨
      (∃ i, i < BD_COUNT ∧ env.src_buf i = 0) ∨ env.dsts = 0 ∨
      (∃ i, i < BD_COUNT ∧ env.dst_buf i = 0)) :
    (axidmatester_probe env).ret = 0 ∧ ¬ attach_succeeds env := by
  constructor
  · rcases alloc_then_free env.src_buf Resource.src_buf with ⟨ks, _, hsok, _, hsnz, _, _⟩
    rcases alloc_then_free env.dst_buf Resource.dst_buf with ⟨kd, _, hdok, _, hdnz, _, _⟩
    unfold axidmatester_probe
    simp only []
    generalize alloc_loop env.src_buf Resource.src_buf BD_COUNT 0
      (List.replicate (BD_COUNT + 1) 0) = s at *
    generalize alloc_loop env.dst_buf Resource.dst_buf BD_COUNT 0
      (List.replicate (BD_COUNT + 1) 0) = d at *
    cases h0a : env.axidma0 with
    | none => simp [h0a] at h0
    | some tx =>
      cases h1 : env.axidma1 with
      | none => rfl
      | some rx =>
        by_cases h2 : env.workqueue = 0
        · simp [h2]
        · by_cases h3 : env.work = 0
          · simp [h2, h3]
          · by_cases h4 : env.srcs = 0
            · simp [h2, h3, h4]
            · cases hso : s.ok
              · simp [h2, h3, h4]
              · by_cases h5 : env.dsts = 0
                · simp [h2, h3, h4, h5]
                · cases hdo : d.ok
                  · simp [h2, h3, h4, h5]
                  · exfalso
                    have hks : ks = BD_COUNT := hsok.mp hso
                    have hkd : kd = BD_COUNT := hdok.mp hdo
                    rcases hf with hf | hf | hf | hf | ⟨i, hi, hf⟩ | hf | ⟨i, hi, hf⟩
                    · rw [h1] at hf
                      cases hf
                    · exact h2 hf
                    · exact h3 hf
                    · exact h4 hf
                    · exact hsnz i (by omega) hf
                    · exact h5 hf
                    · exact hdnz i (by omega) hf
  · rintro ⟨_, a1, a2, a3, a4, a5, a6, a7, _⟩
    rcases hf with hf | hf | hf | hf | ⟨i, hi, hf⟩ | hf | ⟨i, hi, hf⟩
    · rw [hf] at a1
      cases a1
    · exact a2 hf
    · exact a3 hf
    · exact a4 hf
    · exact a5 i hi hf
    · exact a6 hf
    · exact a7 i hi hf

/-! ## What the mapping loops leave in the address arrays, and what the unwind reads -/

theorem map_loop_all_ok (m : Nat → Nat) (e : Nat → Bool) (c : Nat → Nat → Call) :
    ∀ (n i : Nat) (pre tail : List Nat), pre.length = i → tail.length = n →
      (∀ j, i ≤ j → j < i + n → e (m j) = false) →
      map_loop m e c n i (pre ++ tail) =
        ⟨pre ++ (List.range' i n).map m, (List.range' i n).map (fun j => c j (m j)), true⟩ := by
  intro n
  induction n with
  | zero =>
    intro i pre tail _ ht _
    have : tail = [] := List.length_eq_zero.mp ht
    subst this
    simp [map_loop]
  | succ n ih =>
    intro i pre tail hpre ht h
    cases tail with
    | nil => simp at ht
    | cons t tail =>
      have hlen : tail.length = n := by simpa using ht
      have hset : (pre ++ t :: tail).set i (m i) = pre ++ m i :: tail := by
        rw [← hpre, set_length_append]
      have he : e (m i) = false := h i (Nat.le_refl i) (by omega)
      have happ : pre ++ m i :: tail = (pre ++ [m i]) ++ tail := by simp
      rw [map_loop]
      simp only [hset, he, Bool.false_eq_true, if_false]
      rw [happ, ih (i + 1) (pre ++ [m i]) tail (by simp [hpre]) hlen
        (fun j h1 h2 => h j (by omega) (by omega))]
      simp [List.range'_succ]

theorem map_loop_fails_at (m : Nat → Nat) (e : Nat → Bool) (c : Nat → Nat → Call) :
    ∀ (k n i : Nat) (pre tail : List Nat), pre.length = i → tail.length = n → k < n →
      (∀ j, i ≤ j → j < i + k → e (m j) = false) → e (m (i + k)) = true →
      map_loop m e c n i (pre ++ tail) =
        ⟨pre ++ (List.range' i (k + 1)).map m ++ tail.drop (k + 1),
         (List.range' i (k + 1)).map (fun j => c j (m j)), false⟩ := by
  intro k
  induction k with
  | zero =>
    intro n i pre tail hpre ht hk _ hf
    cases tail with
    | nil =>
      simp at ht
      omega
    | cons t tail =>
      cases n with
      | zero => omega
      | succ n =>
        have hset : (pre ++ t :: tail).set i (m i) = pre ++ m i :: tail := by
          rw [← hpre, set_length_append]
        have he : e (m i) = true := by simpa using hf
        rw [map_loop]
        simp [hset, he]
  | succ k ih =>
    intro n i pre tail hpre ht hk hok hf
    cases tail with
    | nil =>
      simp at ht
      omega
    | cons t tail =>
      cases n with
      | zero => omega
      | succ n =>
        have hlen : tail.length = n := by simpa using ht
        have hset : (pre ++ t :: tail).set i (m i) = pre ++ m i :: tail := by
          rw [← hpre, set_length_append]
        have he : e (m i) = false := hok i (Nat.le_refl i) (by omega)
        have happ : pre ++ m i :: tail = (pre ++ [m i]) ++ tail := by simp
        have hf2 : e (m (i + 1 + k)) = true := by
          have : i + 1 + k = i + (k + 1) := by omega
          rw [this]
          exact hf
        rw [map_loop]
        simp only [hset, he, Bool.false_eq_true, if_false]
        rw [happ, ih n (i + 1) (pre ++ [m i]) tail (by simp [hpre]) hlen (by omega)
          (fun j h1 h2 => hok j (by omega) (by omega)) hf2]
        simp [List.range'_succ]

theorem src_unmapped_unmap_source : ∀ (l : List Nat) (i : Nat) (rest : List Nat),
    (∀ a ∈ l, a ≠ 0) →
      src_unmapped (unmap_source (l ++ rest) i)
        = l ++ src_unmapped (unmap_source rest (i + l.length)) := by
  intro l
  induction l with
  | nil =>
    intro i rest _
    simp
  | cons a l ih =>
    intro i rest h
    have ha : a ≠ 0 := h a (List.mem_cons_self a l)
    have hl : ∀ b ∈ l, b ≠ 0 := fun b hb => h b (List.mem_cons_of_mem a hb)
    have hi : i + (a :: l).length = i + 1 + l.length := by
      simp only [List.length_cons]
      omega
    rw [List.cons_append, unmap_source, if_neg ha, hi, List.cons_append, ← ih (i + 1) rest hl]
    simp [src_unmapped, src_unmap_addr, List.filterMap_cons]

theorem scan_reads_unmap_source : ∀ (l : List Nat) (i : Nat) (rest : List Nat),
    (∀ a ∈ l, a ≠ 0) →
      scan_reads (unmap_source (l ++ rest) i)
        = List.range' i l.length ++ scan_reads (unmap_source rest (i + l.length)) := by
  intro l
  induction l with
  | nil =>
    intro i rest _
    simp
  | cons a l ih =>
    intro i rest h
    have ha : a ≠ 0 := h a (List.mem_cons_self a l)
    have hl : ∀ b ∈ l, b ≠ 0 := fun b hb => h b (List.mem_cons_of_mem a hb)
    have hi : i + (a :: l).length = i + 1 + l.length := by
      simp only [List.length_cons]
      omega
    rw [List.cons_append, unmap_source, if_neg ha, hi, List.length_cons, List.range'_succ,
      List.cons_append, ← ih (i + 1) rest hl]
    simp [scan_reads, scan_index, List.filterMap_cons]

theorem filterMap_eq_map_of {α β : Type} (f : α → Option β) (g : α → β) :
    ∀ l : List α, (∀ a ∈ l, f a = some (g a)) → l.filterMap f = l.map g := by
  intro l
  induction l with
  | nil =>
    intro _
    rfl
  | cons a l ih =>
    intro h
    rw [List.filterMap_cons, h a (List.mem_cons_self a l), List.map_cons,
      ih (fun b hb => h b (List.mem_cons_of_mem a hb))]

theorem unmap_source_replicate_zero (r i : Nat) :
    unmap_source (List.replicate r 0) i = [Call.read_dma_srcs i] := by
  cases r with
  | zero => rfl
  | succ r => simp [List.replicate_succ, unmap_source]

theorem read_mem_unmap_source : ∀ (l : List Nat) (i : Nat), (∀ a ∈ l, a ≠ 0) →
    Call.read_dma_srcs (i + l.length) ∈ unmap_source l i := by
  intro l
  induction l with
  | nil =>
    intro i _
    simp [unmap_source]
  | cons a l ih =>
    intro i h
    have ha : a ≠ 0 := h a (List.mem_cons_self a l)
    have hl : ∀ b ∈ l, b ≠ 0 := fun b hb => h b (List.mem_cons_of_mem a hb)
    have hi : i + (a :: l).length = i + 1 + l.length := by
      simp only [List.length_cons]
      omega
    rw [unmap_source, if_neg ha, hi]
    exact List.mem_cons_of_mem _ (List.mem_cons_of_mem _ (ih (i + 1) hl))

theorem getD_range_map : ∀ (l : List Nat) (n : Nat), l.length = n →
    (List.range n).map (fun i => l.getD i 0) = l := by
  intro l n hn
  apply List.ext_getElem
  · simp [hn]
  · intro i h1 h2
    simp [List.getD_eq_getElem?_getD, List.getElem?_eq_getElem h2]

theorem dst_unmapped_unmap_destination (dma : List Nat) (h : dma.length = BD_COUNT) :
    dst_unmapped (unmap_destination dma) = dma := by
  unfold dst_unmapped unmap_destination
  rw [List.filterMap_map,
    filterMap_eq_map_of (dst_unmap_addr ∘ fun i => Call.unmap_dst i (dma.getD i 0))
      (fun i => dma.getD i 0) (List.range BD_COUNT) (fun i _ => rfl)]
  exact getD_range_map dma BD_COUNT h

theorem filterMap_map_calls_nil (f : Call → Option Nat) (c : Nat → Nat → Call)
    (m : Nat → Nat) (h : ∀ j a, f (c j a) = none) (l : List Nat) :
    List.filterMap f (l.map (fun j => c j (m j))) = [] := by
  rw [List.filterMap_eq_nil_iff]
  intro x hx
  rcases List.mem_map.mp hx with ⟨j, _, hj⟩
  rw [← hj]
  exact h j (m j)

theorem src_mapped_unmap_source (env : Env) (dma : List Nat) (i : Nat) :
    src_mapped env (unmap_source dma i) = [] := by
  unfold src_mapped
  rw [List.filterMap_eq_nil_iff]
  intro x hx
  rcases unmap_source_calls _ _ _ hx with ⟨j, hj⟩ | ⟨j, a, hja⟩
  · rw [hj]
    rfl
  · rw [hja]
    rfl

theorem src_mapped_map_calls (env : Env) (s n : Nat)
    (h : ∀ j, s ≤ j → j < s + n → env.dma_mapping_error (env.map_src j) = false) :
    src_mapped env ((List.range' s n).map (fun j => Call.map_src j (env.map_src j)))
      = (List.range' s n).map env.map_src := by
  unfold src_mapped
  rw [List.filterMap_map]
  apply filterMap_eq_map_of
  intro j hj
  have hj2 := List.mem_range'_1.mp hj
  simp [src_map_addr, h j hj2.1 hj2.2]

theorem dst_mapped_map_calls (env : Env) (s n : Nat)
    (h : ∀ j, s ≤ j → j < s + n → env.dma_mapping_error (env.map_dst j) = false) :
    dst_mapped env ((List.range' s n).map (fun j => Call.map_dst j (env.map_dst j)))
      = (List.range' s n).map env.map_dst := by
  unfold dst_mapped
  rw [List.filterMap_map]
  apply filterMap_eq_map_of
  intro j hj
  have hj2 := List.mem_range'_1.mp hj
  simp [dst_map_addr, h j hj2.1 hj2.2]

/-- A source mapping that fails at index `k` after `k` successes, every value
returned being non-zero: the unwind passes `k + 1` values to the source
`dma_unmap_single`, the `k` mapped addresses and then the value of the failed
mapping, and reads `dma_srcs[0 .. k + 1]`. -/
theorem work_func_src_fails_at (env : Env) (gd_srcs : Nat → Buffer) (k : Nat)
    (hk : k < BD_COUNT)
    (hok : ∀ j, j < k → env.dma_mapping_error (env.map_src j) = false)
    (hfail : env.dma_mapping_error (env.map_src k) = true)
    (hnz : ∀ j, j ≤ k → env.map_src j ≠ 0) :
    (work_func env gd_srcs).calls =
      (List.range' 0 (k + 1)).map (fun j => Call.map_src j (env.map_src j)) ++
      unmap_source ((List.range' 0 (k + 1)).map env.map_src
        ++ List.replicate (BD_COUNT - (k + 1)) 0) 0 ∧
    src_mapped env (work_func env gd_srcs).calls = (List.range' 0 k).map env.map_src ∧
    src_unmapped (work_func env gd_srcs).calls = (List.range' 0 (k + 1)).map env.map_src ∧
    scan_reads (work_func env gd_srcs).calls = List.range' 0 (k + 2) := by
  have hs : src_maps env =
      ⟨(List.range' 0 (k + 1)).map env.map_src ++ List.replicate (BD_COUNT - (k + 1)) 0,
       (List.range' 0 (k + 1)).map (fun j => Call.map_src j (env.map_src j)), false⟩ := by
    have := map_loop_fails_at env.map_src env.dma_mapping_error Call.map_src k BD_COUNT 0 []
      (List.replicate BD_COUNT 0) rfl (by simp) hk
      (fun j _ h2 => hok j (by omega)) (by simpa using hfail)
    simpa [src_maps] using this
  have hc : (work_func env gd_srcs).calls =
      (List.range' 0 (k + 1)).map (fun j => Call.map_src j (env.map_src j)) ++
      unmap_source ((List.range' 0 (k + 1)).map env.map_src
        ++ List.replicate (BD_COUNT - (k + 1)) 0) 0 := by
    rw [work_func_calls, hs]
    simp
  have hl : ∀ a ∈ (List.range' 0 (k + 1)).map env.map_src, a ≠ 0 := by
    intro a ha
    rcases List.mem_map.mp ha with ⟨j, hj, hja⟩
    rw [← hja]
    have := (List.mem_range'_1.mp hj).2
    exact hnz j (by omega)
  refine ⟨hc, ?_, ?_, ?_⟩
  · rw [hc]
    have h2 := src_mapped_unmap_source env ((List.range' 0 (k + 1)).map env.map_src
          ++ List.replicate (BD_COUNT - (k + 1)) 0) 0
    have h3 := src_mapped_map_calls env 0 k (fun j _ h2 => hok j (by omega))
    unfold src_mapped at h2 h3 ⊢
    rw [List.filterMap_append, h2, List.append_nil, List.range'_concat, List.map_append,
      List.filterMap_append, h3]
    simp [src_map_addr, hfail]
  · rw [hc]
    unfold src_unmapped
    rw [List.filterMap_append,
      filterMap_map_calls_nil src_unmap_addr Call.map_src env.map_src (fun _ _ => rfl),
      List.nil_append]
    have := src_unmapped_unmap_source _ 0 (List.replicate (BD_COUNT - (k + 1)) 0) hl
    unfold src_unmapped at this
    rw [this, unmap_source_replicate_zero]
    simp [src_unmap_addr]
  · rw [hc]
    unfold scan_reads
    rw [List.filterMap_append,
      filterMap_map_calls_nil scan_index Call.map_src env.map_src (fun _ _ => rfl),
      List.nil_append]
    have := scan_reads_unmap_source _ 0 (List.replicate (BD_COUNT - (k + 1)) 0) hl
    unfold scan_reads at this
    rw [this, unmap_source_replicate_zero]
    simp only [List.length_map, List.length_range', Nat.zero_add, List.filterMap_cons,
      List.filterMap_nil, scan_index]
    rw [List.range'_concat 0 (k + 1)]
    simp

theorem src_maps_all_ok (env : Env)
    (h : ∀ i, i < BD_COUNT → env.dma_mapping_error (env.map_src i) = false) :
    src_maps env =
      ⟨(List.range' 0 BD_COUNT).map env.map_src,
       (List.range' 0 BD_COUNT).map (fun j => Call.map_src j (env.map_src j)), true⟩ := by
  have := map_loop_all_ok env.map_src env.dma_mapping_error Call.map_src BD_COUNT 0 []
    (List.replicate BD_COUNT 0) rfl (by simp) (fun j _ h2 => h j (by omega))
  simpa [src_maps] using this

/-- When every source mapping succeeds with a non-zero address, the source
unwind scan reads `dma_srcs[BD_COUNT]`, one slot past the end of the array,
whatever happens between the mappings and the unwind. -/
theorem work_func_reads_past_end (env : Env) (gd_srcs : Nat → Buffer)
    (hok : ∀ i, i < BD_COUNT → env.dma_mapping_error (env.map_src i) = false)
    (hnz : ∀ i, i < BD_COUNT → env.map_src i ≠ 0) :
    Call.read_dma_srcs BD_COUNT ∈ (work_func env gd_srcs).calls := by
  have hs := src_maps_all_ok env hok
  have hl : ∀ a ∈ (List.range' 0 BD_COUNT).map env.map_src, a ≠ 0 := by
    intro a ha
    rcases List.mem_map.mp ha with ⟨j, hj, hja⟩
    rw [← hja]
    have := (List.mem_range'_1.mp hj).2
    exact hnz j (by omega)
  have hr := read_mem_unmap_source _ 0 hl
  simp only [List.length_map, List.length_range', Nat.zero_add] at hr
  rw [work_func_calls, hs]
  simp only [Bool.true_eq_false, if_false]
  split
  · exact List.mem_append_right _ hr
  · exact List.mem_append_right _ hr

/-- A destination mapping that fails at index `j` after every source mapping
and `j` destination mappings succeeded: the unwind passes all `BD_COUNT` slots
of `dma_dsts` to the destination `dma_unmap_single`, that is the `j` mapped
addresses, the value of the failed mapping, and what the stack held in the
slots the loop never wrote. -/
theorem work_func_dst_fails_at (env : Env) (gd_srcs : Nat → Buffer) (j : Nat)
    (hj : j < BD_COUNT)
    (hsrc : ∀ i, i < BD_COUNT → env.dma_mapping_error (env.map_src i) = false)
    (hok : ∀ i, i < j → env.dma_mapping_error (env.map_dst i) = false)
    (hfail : env.dma_mapping_error (env.map_dst j) = true) :
    dst_mapped env (work_func env gd_srcs).calls = (List.range' 0 j).map env.map_dst ∧
    dst_unmapped (work_func env gd_srcs).calls =
      (List.range' 0 (j + 1)).map env.map_dst
        ++ ((List.range BD_COUNT).map env.dma_dsts_stack).drop (j + 1) ∧
    (dst_unmapped (work_func env gd_srcs).calls).length = BD_COUNT := by
  have hs := src_maps_all_ok env hsrc
  have hd : dst_maps env =
      ⟨(List.range' 0 (j + 1)).map env.map_dst
        ++ ((List.range BD_COUNT).map env.dma_dsts_stack).drop (j + 1),
       (List.range' 0 (j + 1)).map (fun i => Call.map_dst i (env.map_dst i)), false⟩ := by
    have := map_loop_fails_at env.map_dst env.dma_mapping_error Call.map_dst j BD_COUNT 0 []
      ((List.range BD_COUNT).map env.dma_dsts_stack) rfl (by simp) hj
      (fun i _ h2 => hok i (by omega)) (by simpa using hfail)
    simpa [dst_maps] using this
  have hlen : ((List.range' 0 (j + 1)).map env.map_dst
        ++ ((List.range BD_COUNT).map env.dma_dsts_stack).drop (j + 1)).length = BD_COUNT := by
    simp
    omega
  have hc : (work_func env gd_srcs).calls =
      (List.range' 0 BD_COUNT).map (fun i => Call.map_src i (env.map_src i)) ++
      (List.range' 0 (j + 1)).map (fun i => Call.map_dst i (env.map_dst i)) ++
      unmap_destination ((List.range' 0 (j + 1)).map env.map_dst
        ++ ((List.range BD_COUNT).map env.dma_dsts_stack).drop (j + 1)) ++
      unmap_source ((List.range' 0 BD_COUNT).map env.map_src) 0 := by
    rw [work_func_calls, hs, hd]
    simp
  have hu : dst_unmapped (work_func env gd_srcs).calls =
      (List.range' 0 (j + 1)).map env.map_dst
        ++ ((List.range BD_COUNT).map env.dma_dsts_stack).drop (j + 1) := by
    rw [hc]
    have h3 := dst_unmapped_unmap_destination _ hlen
    have h4 : List.filterMap dst_unmap_addr
        (unmap_source ((List.range' 0 BD_COUNT).map env.map_src) 0) = [] := by
      rw [List.filterMap_eq_nil_iff]
      intro x hx
      rcases unmap_source_calls _ _ _ hx with ⟨i, hi⟩ | ⟨i, a, hia⟩
      · rw [hi]
        rfl
      · rw [hia]
        rfl
    unfold dst_unmapped at h3 ⊢
    rw [List.filterMap_append, List.filterMap_append, List.filterMap_append,
      filterMap_map_calls_nil dst_unmap_addr Call.map_src env.map_src (fun _ _ => rfl),
      filterMap_map_calls_nil dst_unmap_addr Call.map_dst env.map_dst (fun _ _ => rfl),
      h3, h4]
    simp
  refine ⟨?_, hu, ?_⟩
  · rw [hc]
    have h2 := dst_mapped_map_calls env 0 j (fun i _ h2 => hok i (by omega))
    have h3 : List.filterMap (dst_map_addr env.dma_mapping_error)
        (unmap_destination ((List.range' 0 (j + 1)).map env.map_dst
          ++ ((List.range BD_COUNT).map env.dma_dsts_stack).drop (j + 1))) = [] := by
      rw [List.filterMap_eq_nil_iff]
      intro x hx
      rcases unmap_destination_calls _ _ hx with ⟨i, a, hia⟩
      rw [hia]
      rfl
    have h4 : List.filterMap (dst_map_addr env.dma_mapping_error)
        (unmap_source ((List.range' 0 BD_COUNT).map env.map_src) 0) = [] := by
      rw [List.filterMap_eq_nil_iff]
      intro x hx
      rcases unmap_source_calls _ _ _ hx with ⟨i, hi⟩ | ⟨i, a, hia⟩
      · rw [hi]
        rfl
      · rw [hia]
        rfl
    unfold dst_mapped at h2 ⊢
    rw [List.filterMap_append, List.filterMap_append, List.filterMap_append,
      filterMap_map_calls_nil (dst_map_addr env.dma_mapping_error) Call.map_src env.map_src
        (fun _ _ => rfl),
      h3, h4, List.range'_concat, List.map_append, List.filterMap_append, h2]
    simp [dst_map_addr, hfail]
  · rw [hu]
    exact hlen

/-! ## The claims -/

/-- C1 fails on the code.  When the first source mapping fails, no source
mapping has succeeded and yet one value, the error value itself, is passed to
the source `dma_unmap_single`.  When destination mapping 5 fails after five
successes, 13 values are passed to the destination `dma_unmap_single`: the five
mapped addresses, the error value, and seven slots of `dma_dsts` that were
never written. -/
theorem C1_unmaps_differ_from_maps :
    (src_mapped (env_src_fail 0) (work_func (env_src_fail 0) gd_srcs_zero).calls = [] ∧
     src_unmapped (work_func (env_src_fail 0) gd_srcs_zero).calls = [DMA_MAPPING_ERROR]) ∧
    ((dst_mapped (env_dst_fail 5) (work_func (env_dst_fail 5) gd_srcs_zero).calls).length = 5 ∧
     (dst_unmapped (work_func (env_dst_fail 5) gd_srcs_zero).calls).length = 13 ∧
     dst_unmapped (work_func (env_dst_fail 5) gd_srcs_zero).calls =
       [413696, 417792, 421888, 425984, 430080, DMA_MAPPING_ERROR,
        7006, 7007, 7008, 7009, 7010, 7011, 7012]) := by
  decide

/-- C2 fails on the code: when source mappings 0 and 1 succeed and source
mapping 2 fails, the run performs three source unmaps, of the two mapped
addresses and then of the error value stored in `dma_srcs[2]`; it makes no
destination map or unmap and prepares no descriptor. -/
theorem C2_src_fail_unmaps_failed_slot :
    (work_func (env_src_fail 2) gd_srcs_zero).calls =
      [Call.map_src 0 4096, Call.map_src 1 8192, Call.map_src 2 DMA_MAPPING_ERROR,
       Call.read_dma_srcs 0, Call.unmap_src 0 4096,
       Call.read_dma_srcs 1, Call.unmap_src 1 8192,
       Call.read_dma_srcs 2, Call.unmap_src 2 DMA_MAPPING_ERROR,
       Call.read_dma_srcs 3] ∧
    src_mapped (env_src_fail 2) (work_func (env_src_fail 2) gd_srcs_zero).calls = [4096, 8192] ∧
    src_unmapped (work_func (env_src_fail 2) gd_srcs_zero).calls
      = [4096, 8192, DMA_MAPPING_ERROR] := by
  decide

/-- C3 fails on the code: when every source mapping succeeds, destination
mappings 0 and 1 succeed and destination mapping 2 fails, the run unmaps all 13
slots of `dma_dsts` (the two mapped addresses, the error value, and the ten
slots never written, here 7003 to 7012 from the stack) before it unmaps the 13
source addresses; no descriptor is prepared. -/
theorem C3_dst_fail_unmaps_every_slot :
    (work_func (env_dst_fail 2) gd_srcs_zero).calls =
      (List.range 13).map (fun i => Call.map_src i (4096 * (i + 1))) ++
      [Call.map_dst 0 413696, Call.map_dst 1 417792, Call.map_dst 2 DMA_MAPPING_ERROR,
       Call.unmap_dst 0 413696, Call.unmap_dst 1 417792, Call.unmap_dst 2 DMA_MAPPING_ERROR,
       Call.unmap_dst 3 7003, Call.unmap_dst 4 7004, Call.unmap_dst 5 7005,
       Call.unmap_dst 6 7006, Call.unmap_dst 7 7007, Call.unmap_dst 8 7008,
       Call.unmap_dst 9 7009, Call.unmap_dst 10 7010, Call.unmap_dst 11 7011,
       Call.unmap_dst 12 7012] ++
      unmap_source ((List.range 13).map (fun i => 4096 * (i + 1))) 0 ∧
    dst_mapped (env_dst_fail 2) (work_func (env_dst_fail 2) gd_srcs_zero).calls
      = [413696, 417792] ∧
    (dst_unmapped (work_func (env_dst_fail 2) gd_srcs_zero).calls).length = 13 ∧
    src_unmapped (work_func (env_dst_fail 2) gd_srcs_zero).calls
      = (List.range 13).map (fun i => 4096 * (i + 1)) := by
  decide

/-- C5: every source buffer stamped by `work_func` passes the check of the
verification loop as it stands after stamping: the checksum recomputed over the
payload region equals the stored trailer, and every payload byte is still the
random byte written before the trailer. -/
theorem C5_stamp_then_verify (env : Env) (gd_srcs : Nat → Buffer) (i : Nat) (hi : i < BD_COUNT) :
    verify env.ip_compute_csum ((work_func env gd_srcs).srcs i) = true ∧
    compute_csum env.ip_compute_csum ((work_func env gd_srcs).srcs i)
      = checksum ((work_func env gd_srcs).srcs i) ∧
    checksum ((work_func env gd_srcs).srcs i)
      = env.ip_compute_csum ((List.range BUFFER_DATA_SIZE).map (fun o => env.random i o % 256))
          % 65536 ∧
    (∀ o, o < BUFFER_DATA_SIZE → (work_func env gd_srcs).srcs i o = env.random i o % 256) ∧
    random_data ((work_func env gd_srcs).srcs i)
      = random_data (fill_random_data (env.random i) (gd_srcs i)) := by
  have hs : (work_func env gd_srcs).srcs i
      = stamp env.ip_compute_csum (env.random i) (gd_srcs i) := by
    rw [work_func_srcs, stamp_loop_apply]
    have : 0 ≤ i ∧ i < 0 + BD_COUNT := by omega
    rw [if_pos this]
  rw [hs]
  have hv := verify_stamp env.ip_compute_csum (env.random i) (gd_srcs i)
  have hr := random_data_stamp env.ip_compute_csum (env.random i) (gd_srcs i)
  refine ⟨?_, hv, ?_, ?_, hr⟩
  · simp [verify, hv]
  · have hl : random_data (fill_random_data (env.random i) (gd_srcs i))
        = (List.range BUFFER_DATA_SIZE).map (fun o => env.random i o % 256) := by
      unfold random_data
      apply List.map_congr_left
      intro o ho
      simp [fill_random_data, List.mem_range.mp ho]
    rw [← hv]
    unfold compute_csum
    rw [hr, hl]
  · intro o ho
    exact stamp_payload _ _ _ o ho

/-- C5, at source buffer 3 of a run in which every step succeeds. -/
theorem C5_stamp_then_verify_witness :
    3 < BD_COUNT ∧
    verify env_ok.ip_compute_csum ((work_func env_ok gd_srcs_zero).srcs 3) = true :=
  ⟨by decide, (C5_stamp_then_verify env_ok gd_srcs_zero 3 (by decide)).1⟩

/-- C6 fails on the code: at a probe in which requesting channel "axidma1"
fails, and likewise when the workqueue, the work item, a pointer array or a
buffer cannot be obtained, the attach does not succeed and probe returns 0;
only a failure of channel "axidma0" (-1) or of the sysfs group (its error
value) is reported. -/
theorem C6_probe_returns_zero_when_axidma1_fails :
    (¬ attach_succeeds penv_rx_fail ∧ (axidmatester_probe penv_rx_fail).ret = 0) ∧
    (¬ attach_succeeds { penv_ok with workqueue := 0 } ∧
      (axidmatester_probe { penv_ok with workqueue := 0 }).ret = 0) ∧
    (¬ attach_succeeds { penv_ok with work := 0 } ∧
      (axidmatester_probe { penv_ok with work := 0 }).ret = 0) ∧
    (¬ attach_succeeds { penv_ok with srcs := 0 } ∧
      (axidmatester_probe { penv_ok with srcs := 0 }).ret = 0) ∧
    (¬ attach_succeeds (penv_src_fail 4) ∧ (axidmatester_probe (penv_src_fail 4)).ret = 0) ∧
    (¬ attach_succeeds { penv_ok with dsts := 0 } ∧
      (axidmatester_probe { penv_ok with dsts := 0 }).ret = 0) ∧
    (¬ attach_succeeds (penv_dst_fail 4) ∧ (axidmatester_probe (penv_dst_fail 4)).ret = 0) ∧
    (axidmatester_probe { penv_ok with axidma0 := none }).ret = -1 ∧
    (axidmatester_probe { penv_ok with sysfs_create_group := -ENOMEM }).ret = -ENOMEM ∧
    (attach_succeeds penv_ok ∧ (axidmatester_probe penv_ok).ret = 0) := by
  decide

/-- C7 as stated fails: when the allocation of source buffer 2 fails, the
resources are not released in the reverse of the order they were acquired
(buffers 0 and 1 are freed in that order). -/
theorem C7_release_order_not_reverse :
    released (axidmatester_probe (penv_src_fail 2)).calls
      ≠ (acquired (axidmatester_probe (penv_src_fail 2)).calls).reverse ∧
    acquired (axidmatester_probe (penv_src_fail 2)).calls =
      [Resource.axidma0 10, Resource.axidma1 11, Resource.workqueue 20, Resource.work 30,
       Resource.srcs 40, Resource.src_buf 0 100, Resource.src_buf 1 101] ∧
    released (axidmatester_probe (penv_src_fail 2)).calls =
      [Resource.src_buf 0 100, Resource.src_buf 1 101, Resource.srcs 40, Resource.work 30,
       Resource.workqueue 20, Resource.axidma1 11, Resource.axidma0 10] := by
  decide

/-- C7, amended: when any attach step fails, probe first acquires and then
releases; what it releases is exactly what it acquired, each resource once and
nothing else; resources acquired by a later step are released before those of
an earlier step; and the buffers of one set are freed in ascending slot order,
the order in which they were allocated. -/
theorem C7_failed_probe_unwinds (env : ProbeEnv) (h : ¬ attach_succeeds env) :
    (axidmatester_probe env).calls =
        (acquired (axidmatester_probe env).calls).map ProbeCall.acquire ++
        (released (axidmatester_probe env).calls).map ProbeCall.release ∧
    (released (axidmatester_probe env).calls).Perm (acquired (axidmatester_probe env).calls) ∧
    (acquired (axidmatester_probe env).calls).Pairwise acquired_before ∧
    (released (axidmatester_probe env).calls).Pairwise released_before := by
  rcases probe_shape env h with ⟨m, tx, rx, ks, kd, hc⟩
  have hw := attach_blocks_within env tx rx ks kd
  have hx := attach_blocks_across env tx rx ks kd
  generalize attach_blocks env tx rx ks kd = B at *
  have ha : acquired (axidmatester_probe env).calls = (B.take m).flatten := by
    rw [hc, acquired_map_append]
  have hr : released (axidmatester_probe env).calls = (B.take m).reverse.flatten := by
    rw [hc, released_map_append]
  have hw2 : ∀ l ∈ B.take m, l.Pairwise (fun a b => a.step = b.step ∧ a.slot < b.slot) :=
    fun l hl => hw l (List.mem_of_mem_take hl)
  have hx2 : (B.take m).Pairwise
      (fun l1 l2 => ∀ x ∈ l1, ∀ y ∈ l2, Resource.step x < Resource.step y) :=
    hx.sublist (List.take_sublist m B)
  refine ⟨?_, ?_, ?_, ?_⟩
  · rw [ha, hr]
    exact hc
  · rw [ha, hr]
    exact (List.reverse_perm _).flatten
  · rw [ha, List.pairwise_flatten]
    constructor
    · intro l hl
      exact (hw2 l hl).imp (fun {a b} hab => Or.inr hab)
    · exact hx2.imp (fun {l1 l2} hl x hx1 y hy => Or.inl (hl x hx1 y hy))
  · rw [hr, List.pairwise_flatten]
    constructor
    · intro l hl
      exact (hw2 l (List.mem_reverse.mp hl)).imp (fun {a b} hab => Or.inr hab)
    · rw [List.pairwise_reverse]
      exact hx2.imp (fun {l1 l2} hl x hx1 y hy => Or.inl (hl y hy x hx1))

/-- C7 amended, at a probe in which the allocation of source buffer 2 fails. -/
theorem C7_failed_probe_unwinds_witness :
    ¬ attach_succeeds (penv_src_fail 2) ∧
    (released (axidmatester_probe (penv_src_fail 2)).calls).Perm
      (acquired (axidmatester_probe (penv_src_fail 2)).calls) ∧
    (acquired (axidmatester_probe (penv_src_fail 2)).calls).Pairwise acquired_before ∧
    (released (axidmatester_probe (penv_src_fail 2)).calls).Pairwise released_before :=
  ⟨by decide, (C7_failed_probe_unwinds (penv_src_fail 2) (by decide)).2⟩

/-- C8 as stated fails: the receive timeout in milliseconds is not 100 times
the transmit timeout. -/
theorem C8_rx_tmo_not_100_times_tx_tmo : ¬ (rx_tmo_msecs = 100 * tx_tmo_msecs) := by
  decide

/-- C8, amended: the receive timeout in milliseconds (300000) equals 10 times
the transmit timeout in milliseconds (30000), and these are the timeouts of the
two waits of a run. -/
theorem C8_rx_tmo_eq_10_times_tx_tmo :
    rx_tmo_msecs = 10 * tx_tmo_msecs ∧ tx_tmo_msecs = 30000 ∧ rx_tmo_msecs = 300000 ∧
    Call.wait_tx 30000 ∈ (work_func env_ok gd_srcs_zero).calls ∧
    Call.wait_rx 300000 ∈ (work_func env_ok gd_srcs_zero).calls := by
  decide

/-- C9: a run emits a pass/fail result exactly when every fallible step
succeeds; a transmit or receive timeout, or a status other than complete after
either wait, ends the run without a report; and when only the receive completion
never signals the run goes through the transmit wait and the transmit status
query, reaches the receive wait, and unwinds from there without the receive
status query and without a report. -/
theorem C9_report_iff_all_steps_succeed (env : Env) (gd_srcs : Nat → Buffer) :
    (reports (work_func env gd_srcs).calls ↔ all_steps_succeed env) ∧
    ((env.tx_wait = 0 ∨ env.tx_status ≠ dma_status.DMA_COMPLETE ∨
        env.rx_wait = 0 ∨ env.rx_status ≠ dma_status.DMA_COMPLETE) →
      ¬ reports (work_func env gd_srcs).calls) ∧
    (only_rx_never_signals env →
      (work_func env gd_srcs).calls =
        (src_maps env).calls ++ (dst_maps env).calls ++
        [Call.prep_rx (((dst_maps env).dma.take BD_COUNT).map (fun x => (x, BUFFER_SIZE))),
         Call.prep_tx (((src_maps env).dma.take BD_COUNT).map (fun x => (x, BUFFER_SIZE))),
         Call.submit_rx, Call.submit_tx, Call.issue_pending_rx, Call.issue_pending_tx,
         Call.wait_tx tx_tmo_msecs, Call.status_tx, Call.wait_rx rx_tmo_msecs] ++
        unmap_destination (dst_maps env).dma ++ unmap_source (src_maps env).dma 0 ∧
      List.IsInfix [Call.wait_tx tx_tmo_msecs, Call.status_tx, Call.wait_rx rx_tmo_msecs]
        (work_func env gd_srcs).calls ∧
      Call.status_rx ∉ (work_func env gd_srcs).calls ∧
      ¬ reports (work_func env gd_srcs).calls) := by
  refine ⟨reports_iff env gd_srcs, ?_, ?_⟩
  · intro h hr
    have ha := (reports_iff env gd_srcs).mp hr
    rcases ha with ⟨_, _, _, _, _, _, h5, h6, h7, h8⟩
    rcases h with h | h | h | h
    · exact h5 h
    · exact h h6
    · exact h7 h
    · exact h h8
  · intro h
    have hc := work_func_rx_never env gd_srcs h
    refine ⟨hc, ?_, ?_, ?_⟩
    · rw [hc]
      refine ⟨(src_maps env).calls ++ (dst_maps env).calls ++
        [Call.prep_rx (((dst_maps env).dma.take BD_COUNT).map (fun x => (x, BUFFER_SIZE))),
         Call.prep_tx (((src_maps env).dma.take BD_COUNT).map (fun x => (x, BUFFER_SIZE))),
         Call.submit_rx, Call.submit_tx, Call.issue_pending_rx, Call.issue_pending_tx],
        unmap_destination (dst_maps env).dma ++ unmap_source (src_maps env).dma 0, ?_⟩
      simp
    · intro hm
      rcases h with ⟨_, _, h1, h2, h3, h4, h5, h6, h7⟩
      rcases mem_work_func_calls env gd_srcs _ hm with
        ⟨j, a, hx⟩ | ⟨j, a, hx⟩ | ⟨_, hx⟩ | ⟨j, a, hx⟩ | ⟨j, hx⟩ | ⟨j, a, hx⟩
      · cases hx
      · cases hx
      · rw [transfer_rx_never env _ _ h1 h2 h3 h4 h5 h6 h7] at hx
        simp at hx
      · cases hx
      · cases hx
      · cases hx
    · intro hr
      have ha := (reports_iff env gd_srcs).mp hr
      exact ha.2.2.2.2.2.2.2.2.1 h.2.2.2.2.2.2.2.2

/-- C9, at a run in which only the receive completion never signals. -/
theorem C9_report_iff_all_steps_succeed_witness :
    only_rx_never_signals env_rx_never ∧
    List.IsInfix [Call.wait_tx tx_tmo_msecs, Call.status_tx, Call.wait_rx rx_tmo_msecs]
      (work_func env_rx_never gd_srcs_zero).calls ∧
    Call.status_rx ∉ (work_func env_rx_never gd_srcs_zero).calls ∧
    ¬ reports (work_func env_rx_never gd_srcs_zero).calls :=
  ⟨by decide, ((C9_report_iff_all_steps_succeed env_rx_never gd_srcs_zero).2.2 (by decide)).2⟩

/-- C10 fails on the code: in a run in which all 13 source mappings succeed
with non-zero addresses, the source unwind scan reads `dma_srcs` at the indices
0 to 13, the last of which is `BD_COUNT`, one past the end of the array. -/
theorem C10_scan_reads_index_BD_COUNT :
    (∀ i, i < BD_COUNT → env_ok.dma_mapping_error (env_ok.map_src i) = false
      ∧ env_ok.map_src i ≠ 0) ∧
    Call.read_dma_srcs BD_COUNT ∈ (work_func env_ok gd_srcs_zero).calls ∧
    scan_reads (work_func env_ok gd_srcs_zero).calls = List.range (BD_COUNT + 1) := by
  decide

end AxiDmaTester
